import Mathlib

/-!
Verification of the bank-statement extraction pipeline
(`main_extractor.py`, `parsers/{bbva,banamex_empresa,inbursa}_parser.py`,
`utils/{validators,field_extractors}.py`).

The Python code is shallowly embedded: strings are Lean `String`
(computations run over `List Char`), Python `float`/`Decimal` monetary
values are modelled as exact decimal fractions (`Dec` below, an integer
numerator over a power-of-ten denominator; every monetary value the
program builds is such a fraction, on which Python's `Decimal`
arithmetic and the `str`/`Decimal`/`float` round-trips are exact),
Python `dict`s keyed by strings are association lists (`Dict` below),
`None`-able values use an explicit constructor, fallible code returns
`Option`.  Character classes follow Python `re` restricted to ASCII,
which covers every string the program manipulates in the verified
properties.
-/

/-! ## Basic character/string utilities (Python `str` operations) -/

/-- Python whitespace class `\s` (ASCII range). -/
def isSpaceChar (c : Char) : Bool := c.isWhitespace

/-- Python word-character class `\w` (ASCII range): letters, digits, underscore. -/
def isWordChar (c : Char) : Bool := c.isAlphanum || c = '_'

/-- Python `str.strip()` (ASCII whitespace). -/
def trimChars (cs : List Char) : List Char :=
  ((cs.dropWhile isSpaceChar).reverse.dropWhile isSpaceChar).reverse

/-- Python `str.strip()` on `String`. -/
def pyStrip (s : String) : String := String.mk (trimChars s.data)

/-- Python `str.lower()` (ASCII letters; the fingerprints searched for are ASCII). -/
def pyLower (s : String) : String := String.mk (s.data.map Char.toLower)

/-- Python `str.upper()` (ASCII letters). -/
def pyUpper (s : String) : String := String.mk (s.data.map Char.toUpper)

/-- Substring containment on character lists (Python `needle in hay`). -/
def listContains (needle : List Char) : List Char → Bool
  | [] => needle.isEmpty
  | c :: t => needle.isPrefixOf (c :: t) || listContains needle t

/-- Python `needle in hay` on strings. -/
def strContains (hay needle : String) : Bool := listContains needle.data hay.data

/-- Index of the first occurrence of `needle` in `hay` (Python `re.search(...).start()`
for a literal pattern), if any. -/
def findSubIdx (needle : List Char) : List Char → Option Nat
  | [] => if needle.isEmpty then some 0 else none
  | c :: t =>
    if needle.isPrefixOf (c :: t) then some 0
    else (findSubIdx needle t).map (· + 1)

/-- One step of Python `str.replace(pat, repl)` (leftmost occurrence, `pat ≠ ""`),
driven by fuel for termination; `replaceAllChars` supplies `fuel = length + 1`. -/
def replaceAllCharsAux (pat repl : List Char) : Nat → List Char → List Char
  | 0, cs => cs
  | _ + 1, [] => []
  | fuel + 1, c :: t =>
    if pat ≠ [] && pat.isPrefixOf (c :: t) then
      repl ++ replaceAllCharsAux pat repl fuel ((c :: t).drop pat.length)
    else c :: replaceAllCharsAux pat repl fuel t

/-- Python `str.replace(pat, repl)`: every non-overlapping occurrence, left to right. -/
def replaceAllChars (cs pat repl : List Char) : List Char :=
  replaceAllCharsAux pat repl (cs.length + 1) cs

/-- Python `str.replace` on `String`. -/
def pyReplace (s pat repl : String) : String :=
  String.mk (replaceAllChars s.data pat.data repl.data)

/-- Python `"sep".join` for a page/line list. -/
def joinWith (sep : String) (parts : List String) : String :=
  String.mk ((parts.map String.data).intersperse sep.data).flatten

/-- Split a character list at every occurrence of `sep` (Python `str.split`
with a one-character separator). -/
def splitOnChar (sep : Char) : List Char → List (List Char)
  | [] => [[]]
  | c :: t =>
    let r := splitOnChar sep t
    if c = sep then [] :: r
    else
      match r with
      | h :: t2 => (c :: h) :: t2
      | [] => [[c]]

/-- Python `str.split('\n')`. -/
def splitLines (s : String) : List String := (splitOnChar '\n' s.data).map String.mk

/-- Python `str.zfill(2)` for day numbers. -/
def zfill2 (s : String) : String := if s.length = 1 then "0" ++ s else s

/-- Python `os.path.basename` (POSIX): the part after the last `/`. -/
def pyBasename (s : String) : String :=
  String.mk ((s.data.reverse.takeWhile (fun c => c ≠ '/')).reverse)

/-! ## Exact decimal numbers

All monetary values the program manipulates are decimal fractions, and
every division it performs (by `100`, by `10 ** k`) has a power-of-ten
divisor, so `float`/`Decimal` values are modelled exactly as
`num / 10 ^ exp`.  Comparisons are by cross-multiplication, so the
representation never needs normalising and every operation is a plain
integer computation the kernel can evaluate. -/

/-- An exact decimal number `num / 10 ^ exp`. -/
structure Dec where
  num : Int
  exp : Nat
deriving DecidableEq, Repr

namespace Dec

instance : OfNat Dec n := ⟨⟨n, 0⟩⟩

instance : Inhabited Dec := ⟨⟨0, 0⟩⟩

/-- Addition (common denominator `10 ^ (a.exp + b.exp)`). -/
def add (a b : Dec) : Dec := ⟨a.num * 10 ^ b.exp + b.num * 10 ^ a.exp, a.exp + b.exp⟩

instance : Add Dec := ⟨add⟩

/-- Subtraction. -/
def sub (a b : Dec) : Dec := ⟨a.num * 10 ^ b.exp - b.num * 10 ^ a.exp, a.exp + b.exp⟩

instance : Sub Dec := ⟨sub⟩

/-- Negation. -/
def neg (a : Dec) : Dec := ⟨-a.num, a.exp⟩

instance : Neg Dec := ⟨neg⟩

/-- Python `abs`. -/
def dabs (a : Dec) : Dec := ⟨(a.num.natAbs : Int), a.exp⟩

/-- Division by `10 ^ k` (the only divisions the program performs). -/
def divPow10 (a : Dec) (k : Nat) : Dec := ⟨a.num, a.exp + k⟩

/-- Value order: `a ≤ b` by cross-multiplication. -/
def le (a b : Dec) : Prop := a.num * 10 ^ b.exp ≤ b.num * 10 ^ a.exp

instance : LE Dec := ⟨le⟩

/-- Strict value order. -/
def lt (a b : Dec) : Prop := a.num * 10 ^ b.exp < b.num * 10 ^ a.exp

instance : LT Dec := ⟨lt⟩

/-- Value equality (Python `==` on numbers); distinct representations such as
`0/1` and `0/100` denote the same value. -/
def deq (a b : Dec) : Prop := a.num * 10 ^ b.exp = b.num * 10 ^ a.exp

instance : DecidablePred (fun p : Dec × Dec => le p.1 p.2) := fun _ => by
  unfold le; infer_instance

instance (a b : Dec) : Decidable (a ≤ b) := by
  show Decidable (le a b); unfold le; infer_instance

instance (a b : Dec) : Decidable (a < b) := by
  show Decidable (lt a b); unfold lt; infer_instance

instance (a b : Dec) : Decidable (deq a b) := by
  unfold deq; infer_instance

end Dec

/-! ## Python values and dictionaries -/

/-- A Python value as stored in the program's string-keyed dictionaries:
a string, a number (float/Decimal modelled as an exact decimal), or `None`. -/
inductive Val where
  | s (v : String)
  | n (v : Dec)
  | none
deriving DecidableEq, Repr

/-- A Python `dict` with string keys, as an association list in insertion order. -/
abbrev Dict := List (String × Val)

/-- Python `d.get(k)` (no default): `Option`-valued lookup. -/
def dget (d : Dict) (k : String) : Option Val :=
  (List.find? (fun p => p.1 = k) d).map (·.2)

/-- Python `d.get(k, dflt)`. -/
def dgetD (d : Dict) (k : String) (dflt : Val) : Val := (dget d k).getD dflt

/-- Python `d.get(k, dflt)` where the stored value is a string
(non-string values never occur at the keys this is used on). -/
def dgetStrD (d : Dict) (k : String) (dflt : String) : String :=
  match dget d k with
  | some (Val.s v) => v
  | _ => dflt

/-- Python `d.get(k, dflt)` where the stored value is numeric
(non-numeric values never occur at the keys this is used on). -/
def dgetNumD (d : Dict) (k : String) (dflt : Dec) : Dec :=
  match dget d k with
  | some (Val.n v) => v
  | _ => dflt

/-- Python `d[k] = v`: replace in place if the key exists, else append. -/
def dset (d : Dict) (k : String) (v : Val) : Dict :=
  if (List.find? (fun p => p.1 = k) d).isSome then
    List.map (fun p => if p.1 = k then (k, v) else p) d
  else d ++ [(k, v)]

/-- The key list of a dictionary, in insertion order. -/
def dictKeys (d : Dict) : List String := List.map Prod.fst d

/-! ## `utils/validators.py`: `limpiar_monto` -/

/-- Decimal value of an ASCII digit list (most significant first). -/
def digitsToNat (cs : List Char) : Nat :=
  cs.foldl (fun a c => a * 10 + (c.toNat - 48)) 0

/-- `Decimal(text)` for a text over the alphabet `{digit, '.', '-'}` (the output
alphabet of `limpiar_monto`'s character filter): an optional leading `-`, then
digits with at most one `.` and at least one digit; anything else raises
`InvalidOperation`, modelled as `Option.none`. -/
def pyDecimalParse (cs : List Char) : Option Dec :=
  let (neg, cs1) := match cs with
    | '-' :: t => (true, t)
    | _ => (false, cs)
  let ip := cs1.takeWhile Char.isDigit
  let valor := fun (fp : List Char) =>
    let v : Dec := ⟨digitsToNat (ip ++ fp), fp.length⟩
    some (if neg then Dec.neg v else v)
  match cs1.drop ip.length with
  | [] => if ip = [] then Option.none else valor []
  | '.' :: rest =>
    let fp := rest.takeWhile Char.isDigit
    if rest.drop fp.length = [] && (ip ++ fp) ≠ [] then valor fp
    else Option.none
  | _ => Option.none

/-- `limpiar_monto`'s character filter: `re.sub(r"[^\d.-]", "", texto)`. -/
def limpiarFiltro (cs : List Char) : List Char :=
  cs.filter (fun c => c.isDigit || c = '.' || c = '-')

/-- `validators.limpiar_monto`: `None` → 0; otherwise strip every character
other than digits, `.` and `-`, and convert with `Decimal`, returning 0 when
the filtered text is empty or `Decimal` raises `InvalidOperation`.
Numeric inputs go through `str()`, whose decimal rendering `Decimal` parses
back to the same value, modelled directly. -/
def limpiar_monto : Val → Dec
  | Val.none => 0
  | Val.n q => q
  | Val.s t =>
    let limpio := limpiarFiltro t.data
    if limpio = [] then 0
    else
      match pyDecimalParse limpio with
      | some q => q
      | Option.none => 0

/-! ## `utils/field_extractors.py`: `funcion_extraer_monto` -/

/-- The leftmost match of `re.search(r'(\d+(?:\.\d{2})?)', s)`: the first maximal
digit run, extended by `.dd` when a dot and two digits follow it.  (The greedy
`\d+` never backtracks here because the optional group starts with a literal
dot, which is not a digit.) -/
def searchMontoToken : List Char → Option (List Char)
  | [] => Option.none
  | c :: t =>
    if c.isDigit then
      let run := (c :: t).takeWhile Char.isDigit
      let rest := (c :: t).drop run.length
      match rest with
      | '.' :: d1 :: d2 :: _ =>
        if d1.isDigit && d2.isDigit then some (run ++ ['.', d1, d2]) else some run
      | _ => some run
    else searchMontoToken t

/-- `float()` of a matched token of shape `\d+(\.\d{2})?` (always succeeds;
the surrounding `try/except ValueError` in the source is therefore dead). -/
def pyFloatToken (cs : List Char) : Dec :=
  match cs.splitOn '.' with
  | [ip] => ⟨digitsToNat ip, 0⟩
  | [ip, fp] => ⟨digitsToNat ip, 0⟩ + Dec.divPow10 ⟨digitsToNat fp, 0⟩ 2
  | _ => 0

/-- `field_extractors.funcion_extraer_monto` on a (non-`None`) string:
drop `,`, `$`, `-`, strip, search `(\d+(?:\.\d{2})?)`, convert; 0 when no match. -/
def funcion_extraer_monto (texto_monto : String) : Dec :=
  if texto_monto = "" then 0
  else
    let limpio := trimChars
      (texto_monto.data.filter (fun c => c ≠ ',' && c ≠ '$' && c ≠ '-'))
    match searchMontoToken limpio with
    | some tok => pyFloatToken tok
    | Option.none => 0

/-- `funcion_extraer_monto` including the `None` input (`if not texto_monto`). -/
def funcion_extraer_monto_py : Option String → Dec
  | Option.none => 0
  | some s => funcion_extraer_monto s

/-! ## `utils/validators.py`: `validar_balance` -/

/-- The discrepancy messages `validar_balance` appends (the free text is
abstracted to its identity; the flags and branch structure are preserved). -/
inductive MensajeBalance where
  | totalesOk
  | errorTotalesDepositos
  | errorTotalesRetiros
  | balanceOk
  | balanceFormulaSinTotales
  | errorBalance
deriving DecidableEq, Repr

/-- The report returned by `validar_balance`. -/
structure ReporteBalance where
  balance_coherente : Bool
  totales_coherentes : Bool
  mensajes : List MensajeBalance
deriving DecidableEq, Repr

/-- The transaction-summing loop of `validar_balance`: fold over the
transaction dictionaries, accumulating (deposits, withdrawals) keyed on
`tx.get('clasificacion')` and `limpiar_monto(tx.get('monto', '0'))`. -/
def totales_calculados (transacciones : List Dict) : Dec × Dec :=
  transacciones.foldl
    (fun acc tx =>
      let monto := limpiar_monto (dgetD tx "monto" (Val.s "0"))
      if dget tx "clasificacion" = some (Val.s "Ingreso") then (acc.1 + monto, acc.2)
      else if dget tx "clasificacion" = some (Val.s "Egreso") then (acc.1, acc.2 + monto)
      else acc)
    (0, 0)

/-- `validators.validar_balance`: compares declared totals against summed
transactions and the reconstructed closing balance, each within `Decimal('0.01')`. -/
def validar_balance (datos_generales : Dict) (transacciones : List Dict) :
    ReporteBalance :=
  let saldo_inicial := limpiar_monto (dgetD datos_generales "saldo_inicial" (Val.s "0"))
  let saldo_final := limpiar_monto (dgetD datos_generales "saldo_final" (Val.s "0"))
  let total_depositos_declarado :=
    limpiar_monto (dgetD datos_generales "total_depositos" (Val.s "0"))
  let total_retiros_declarado :=
    limpiar_monto (dgetD datos_generales "total_retiros" (Val.s "0"))
  let calculados := totales_calculados transacciones
  let tolerancia : Dec := ⟨1, 2⟩
  let diferencia_depositos := Dec.dabs (total_depositos_declarado - calculados.1)
  let diferencia_retiros := Dec.dabs (total_retiros_declarado - calculados.2)
  let totales_ok := decide (diferencia_depositos ≤ tolerancia ∧ diferencia_retiros ≤ tolerancia)
  let saldo_final_calculado := saldo_inicial + total_depositos_declarado - total_retiros_declarado
  let diferencia_balance := Dec.dabs (saldo_final - saldo_final_calculado)
  let balance_ok := decide (diferencia_balance ≤ tolerancia)
  { balance_coherente := balance_ok
    totales_coherentes := totales_ok
    mensajes :=
      (if totales_ok then [MensajeBalance.totalesOk]
       else
        (if tolerancia < diferencia_depositos then [MensajeBalance.errorTotalesDepositos]
         else []) ++
        (if tolerancia < diferencia_retiros then [MensajeBalance.errorTotalesRetiros]
         else [])) ++
      (if balance_ok then
        [if totales_ok then MensajeBalance.balanceOk
         else MensajeBalance.balanceFormulaSinTotales]
       else [MensajeBalance.errorBalance]) }

/-! ## `main_extractor.py`: bank detection and parser dispatch -/

/-- The parser-key table of `BankStatementExtractor.__init__` (`self.parsers`). -/
def parsers_map : List String := ["banamex_empresa", "bbva_empresa", "inbursa_empresa"]

/-- `BankStatementExtractor._detectar_banco_y_producto`: join the page texts,
lowercase, and run the keyword rules in source order.  Both arms of the inner
BBVA and Inbursa conditionals return the same key, and they are kept as in the
source. -/
def detectar_banco_y_producto (paginas_texto : List String) : String :=
  if paginas_texto.isEmpty then "desconocido"
  else
    let texto_lower := pyLower (joinWith "" paginas_texto)
    if strContains texto_lower "bbva" then
      if strContains texto_lower "maestra pyme" ||
          strContains texto_lower "versatil negocios" then "bbva_empresa"
      else "bbva_empresa"
    else if strContains texto_lower "inbursa" then
      if strContains texto_lower "inbursact empresarial" then "inbursa_empresa"
      else "inbursa_empresa"
    else if strContains texto_lower "banamex" then
      if strContains texto_lower "inmovitur" then "banamex_empresa"
      else if strContains texto_lower "costco banamex" then "desconocido"
      else if parsers_map.contains "banamex_empresa" then "banamex_empresa"
      else "desconocido"
    else "desconocido"

/-- Module-level names of `parsers/bbva_parser.py`: imported modules, the names
imported from `utils.field_extractors`, and its own top-level definitions. -/
def bbva_module_attrs : List String :=
  ["re", "datetime", "sys", "os",
   "funcion_extraer_fecha_normalizada", "funcion_extraer_monto",
   "funcion_extraer_referencia_mejorada", "funcion_extraer_nombre_completo_transaccion",
   "funcion_extraer_beneficiario_correcto", "funcion_crear_nombre_resumido_inteligente",
   "funcion_extraer_saldo_promedio", "funcion_limpiar_nombre_empresa",
   "funcion_formatear_periodo_archivo", "funcion_determinar_metodo_pago",
   "funcion_extraer_cuentas_origen_destino", "funcion_es_codigo_cargo",
   "funcion_parsear_bbva_empresa", "funcion_extraer_metadatos_completos",
   "funcion_extraer_datos_financieros_robustos", "funcion_extraer_todas_transacciones",
   "funcion_encontrar_seccion_movimientos", "_es_linea_beneficiario",
   "funcion_agrupar_lineas_transacciones", "funcion_parsear_transaccion_individual",
   "funcion_determinar_tipo_transaccion", "funcion_validar_balance_transacciones",
   "parse_bbva_empresa"]

/-- Module-level names of `parsers/banamex_empresa_parser.py`. -/
def banamex_module_attrs : List String :=
  ["re", "sys", "os",
   "funcion_extraer_fecha_normalizada", "funcion_extraer_monto",
   "funcion_extraer_referencia_mejorada", "funcion_extraer_nombre_completo_transaccion",
   "funcion_extraer_beneficiario_correcto", "funcion_crear_nombre_resumido_inteligente",
   "funcion_extraer_saldo_promedio", "funcion_limpiar_nombre_empresa",
   "funcion_formatear_periodo_archivo", "funcion_determinar_metodo_pago",
   "funcion_extraer_cuentas_origen_destino", "funcion_es_codigo_cargo",
   "limpiar_monto", "PATRONES_SALDO_FINAL",
   "funcion_parsear_datos_generales", "funcion_parsear_transacciones",
   "funcion_parsear_banamex_empresa", "funcion_extraer_metadatos_completos",
   "funcion_extraer_todas_transacciones", "funcion_limpiar_basura_banamex",
   "funcion_agrupar_lineas_por_fecha", "funcion_procesar_grupo_transaccion",
   "_determinar_clasificacion", "_extraer_beneficiario_banamex_legacy",
   "funcion_validar_balance_transacciones"]

/-- Module-level names of `parsers/inbursa_parser.py`. -/
def inbursa_module_attrs : List String :=
  ["re", "sys", "os",
   "funcion_extraer_fecha_normalizada", "funcion_extraer_monto",
   "funcion_extraer_referencia_mejorada", "funcion_extraer_nombre_completo_transaccion",
   "funcion_extraer_beneficiario_correcto", "funcion_crear_nombre_resumido_inteligente",
   "funcion_extraer_saldo_promedio", "funcion_limpiar_nombre_empresa",
   "funcion_formatear_periodo_archivo", "funcion_determinar_metodo_pago",
   "funcion_extraer_cuentas_origen_destino",
   "parsear_datos_generales", "parsear_transacciones", "_normalizar_entrada",
   "funcion_normalizar_texto_inbursa", "funcion_extraer_metadatos_completos",
   "funcion_extraer_todas_transacciones", "funcion_procesar_bloque_transaccion",
   "funcion_clasificar_por_texto", "funcion_determinar_tipo_transaccion",
   "funcion_validar_balance_transacciones"]

/-- The module that `self.parsers` maps a key to, as its attribute list. -/
def module_attrs (parser_key : String) : List String :=
  if parser_key = "banamex_empresa" then banamex_module_attrs
  else if parser_key = "bbva_empresa" then bbva_module_attrs
  else if parser_key = "inbursa_empresa" then inbursa_module_attrs
  else []

/-- The exceptions `_parsear_texto` can raise before any text is processed. -/
inductive PyError where
  | attributeError
  | notImplementedError
deriving DecidableEq, Repr

/-- The raising behaviour of `BankStatementExtractor._parsear_texto`: a key
outside `self.parsers` raises `NotImplementedError`; otherwise the attribute
lookups `parser.parsear_datos_generales` and `parser.parsear_transacciones`
are resolved (in that order) before any page text is touched, raising
`AttributeError` when the module does not define the name.  `none` means the
dispatch itself succeeds and the parser functions run. -/
def parsear_texto_error (parser_key : String) : Option PyError :=
  if parsers_map.contains parser_key then
    let attrs := module_attrs parser_key
    if attrs.contains "parsear_datos_generales" then
      if attrs.contains "parsear_transacciones" then Option.none
      else some PyError.attributeError
    else some PyError.attributeError
  else some PyError.notImplementedError

/-! ## `field_extractors.funcion_extraer_fecha_normalizada`

The year is detected from the PDF filename found in `sys.argv`, modelled as an
explicit `argv` parameter. -/

/-- The month map of `funcion_extraer_fecha_normalizada` (default `'01'`). -/
def meses_fecha (m : String) : String :=
  if m = "ENE" then "01" else if m = "FEB" then "02" else if m = "MAR" then "03"
  else if m = "ABR" then "04" else if m = "MAY" then "05" else if m = "JUN" then "06"
  else if m = "JUL" then "07" else if m = "AGO" then "08" else if m = "SEP" then "09"
  else if m = "OCT" then "10" else if m = "NOV" then "11" else if m = "DIC" then "12"
  else "01"

/-- The year-detection scan of `funcion_extraer_fecha_normalizada`: the first
`sys.argv` entry containing `.pdf` (case-insensitively) provides the filename;
`'2024'` in its lowercased basename gives 2024, `'2025'` gives 2025, and the
default is 2025. -/
def anio_detectado (argv : List String) : String :=
  let nombre_archivo :=
    match argv.find? (fun a => strContains (pyLower a) ".pdf") with
    | some a => pyLower (pyBasename a)
    | Option.none => ""
  if strContains nombre_archivo "2024" then "2024"
  else if strContains nombre_archivo "2025" then "2025"
  else "2025"

/-- `re.match(r'(\d{2})/([A-Z]{3})', s)`: two digits, a slash and three capital
letters at the start of the string; returns the day and month-abbreviation
groups. -/
def matchDDMMM (s : String) : Option (String × String) :=
  match s.data with
  | d1 :: d2 :: '/' :: m1 :: m2 :: m3 :: _ =>
    if d1.isDigit && d2.isDigit && m1.isUpper && m2.isUpper && m3.isUpper &&
        m1.isAlpha && m2.isAlpha && m3.isAlpha then
      some (String.mk [d1, d2], String.mk [m1, m2, m3])
    else Option.none
  | _ => Option.none

/-- `re.match(r'\d{2}/\d{2}/\d{4}', s)` as a prefix test. -/
def matchDDMMYYYY (s : String) : Bool :=
  match s.data with
  | d1 :: d2 :: '/' :: m1 :: m2 :: '/' :: y1 :: y2 :: y3 :: y4 :: _ =>
    d1.isDigit && d2.isDigit && m1.isDigit && m2.isDigit &&
      y1.isDigit && y2.isDigit && y3.isDigit && y4.isDigit
  | _ => false

/-- `field_extractors.funcion_extraer_fecha_normalizada`: a `DD/MMM` prefix is
rebuilt as `DD/MM/<detected year>`; otherwise a `DD/MM/YYYY` prefix returns the
input unchanged; otherwise `01/01/<detected year>`. -/
def funcion_extraer_fecha_normalizada (argv : List String) (fecha_texto : String) :
    String :=
  let anio := anio_detectado argv
  match matchDDMMM fecha_texto with
  | some (dia, mes_texto) => dia ++ "/" ++ meses_fecha mes_texto ++ "/" ++ anio
  | Option.none =>
    if matchDDMMYYYY fecha_texto then fecha_texto
    else "01/01/" ++ anio

/-! ## `field_extractors.funcion_es_codigo_cargo` -/

/-- The debit-code set of `funcion_es_codigo_cargo`. -/
def codigos_cargo : List String :=
  ["T17", "A15", "A16", "A17", "G30", "S39", "S40", "P14", "N06", "A01", "E62"]

/-- The credit-code set of `funcion_es_codigo_cargo`. -/
def codigos_abono : List String := ["T20", "W02", "T22", "E57", "Y45", "F04"]

/-- `field_extractors.funcion_es_codigo_cargo`: membership in the code tables,
defaulting unknown codes to debit. -/
def funcion_es_codigo_cargo (codigo : String) : Bool :=
  if codigos_cargo.contains codigo then true
  else if codigos_abono.contains codigo then false
  else true

/-! ## `re.findall` scanners for the three amount patterns and account numbers

Each scanner mirrors one `re.findall` call: the anchored match is analysed at
every position from the left, non-overlapping, advancing one character on
failure; fuel (the remaining length) drives termination. -/

/-- The `(?:,\d{3})*` groups of the Inbursa amount pattern: the maximal run of
`,ddd` groups, returned flattened together with the rest of the input. -/
def commaGroups : List Char → List Char × List Char
  | ',' :: d1 :: d2 :: d3 :: rest =>
    if d1.isDigit && d2.isDigit && d3.isDigit then
      let (gs, r) := commaGroups rest
      (',' :: d1 :: d2 :: d3 :: gs, r)
    else ([], ',' :: d1 :: d2 :: d3 :: rest)
  | cs => ([], cs)

/-- The `\.\d{2}` suffix of the amount patterns. -/
def dotFrac : List Char → Option (List Char × List Char)
  | '.' :: d1 :: d2 :: rest =>
    if d1.isDigit && d2.isDigit then some (['.', d1, d2], rest) else Option.none
  | _ => Option.none

/-- Anchored match of the Inbursa amount pattern `\d{1,3}(?:,\d{3})*\.\d{2}`.
`\d{1,3}` is greedy; when more than three digits start the input every retry
leaves a digit in front of `\.`, and after a maximal group run every shorter
run leaves a `,` in front of `\.`, so neither quantifier needs backtracking. -/
def matchMontoInbAt (cs : List Char) : Option (List Char × List Char) :=
  let run := cs.takeWhile Char.isDigit
  if run.isEmpty || run.length > 3 then Option.none
  else
    let (gs, rest2) := commaGroups (cs.drop run.length)
    match dotFrac rest2 with
    | some (frac, r) => some (run ++ gs ++ frac, r)
    | Option.none => Option.none

/-- `re.findall(r'(\d{1,3}(?:,\d{3})*\.\d{2})', ·)` (Inbursa movements). -/
def findallMontosInbAux : Nat → List Char → List String
  | 0, _ => []
  | _ + 1, [] => []
  | fuel + 1, c :: t =>
    match matchMontoInbAt (c :: t) with
    | some (tok, rest) => String.mk tok :: findallMontosInbAux fuel rest
    | Option.none => findallMontosInbAux fuel t

/-- The Inbursa amount scanner over a string. -/
def findallMontosInb (s : String) : List String :=
  findallMontosInbAux s.data.length s.data

/-- Anchored match of the Banamex amount pattern `[\d,]+\.\d{2}`: the greedy
class run cannot release a character that matches `\.`, so the dot must follow
the maximal `[\d,]` run. -/
def matchMontoBmxAt (cs : List Char) : Option (List Char × List Char) :=
  let run := cs.takeWhile (fun c => c.isDigit || c = ',')
  if run.isEmpty then Option.none
  else
    match dotFrac (cs.drop run.length) with
    | some (frac, r) => some (run ++ frac, r)
    | Option.none => Option.none

/-- `re.findall(r'([\d,]+\.\d{2})', ·)` (Banamex movements). -/
def findallMontosBmxAux : Nat → List Char → List String
  | 0, _ => []
  | _ + 1, [] => []
  | fuel + 1, c :: t =>
    match matchMontoBmxAt (c :: t) with
    | some (tok, rest) => String.mk tok :: findallMontosBmxAux fuel rest
    | Option.none => findallMontosBmxAux fuel t

/-- The Banamex amount scanner over a string. -/
def findallMontosBmx (s : String) : List String :=
  findallMontosBmxAux s.data.length s.data

/-- Character class of the BBVA amount pattern `[\d,.-]`. -/
def isBbvaMontoChar (c : Char) : Bool :=
  c.isDigit || c = ',' || c = '.' || c = '-'

/-- Backtracking split for the BBVA amount pattern `[\d,.-]+\.\d{2}` inside the
maximal class run `s`: the largest `j ≥ 1` such that `s[j] = '.'` and two
digits follow inside the run.  `j` counts down from `length - 3`. -/
def bbvaSplitFrom (s : List Char) : Nat → Option Nat
  | 0 => Option.none
  | j + 1 =>
    match s.drop (j + 1) with
    | '.' :: d1 :: d2 :: _ =>
      if d1.isDigit && d2.isDigit then some (j + 1) else bbvaSplitFrom s j
    | _ => bbvaSplitFrom s j

/-- Anchored match of the BBVA amount pattern `[\d,.-]+\.\d{2}`: take the
maximal class run, then backtrack the greedy `+` to the last dot followed by
two digits. -/
def matchMontoBbvaAt (cs : List Char) : Option (List Char × List Char) :=
  let run := cs.takeWhile isBbvaMontoChar
  if run.length < 4 then Option.none
  else
    match bbvaSplitFrom run (run.length - 3) with
    | some j => some (run.take (j + 3), cs.drop (j + 3))
    | Option.none => Option.none

/-- `re.findall(r'([\d,.-]+\.\d{2})', ·)` (BBVA movement lines). -/
def findallMontosBbvaAux : Nat → List Char → List String
  | 0, _ => []
  | _ + 1, [] => []
  | fuel + 1, c :: t =>
    match matchMontoBbvaAt (c :: t) with
    | some (tok, rest) => String.mk tok :: findallMontosBbvaAux fuel rest
    | Option.none => findallMontosBbvaAux fuel t

/-- The BBVA amount scanner over a string. -/
def findallMontosBbva (s : String) : List String :=
  findallMontosBbvaAux s.data.length s.data

/-- `re.findall(r'\b(\d{10,18})\b', ·)`: maximal digit runs delimited by
word boundaries (no letter, digit or underscore on either side) of length 10
to 18.  A run failing either test admits no match at any interior position
(digit–digit is never a boundary), so the scan skips whole runs. -/
def findallCuentasAux : Nat → Option Char → List Char → List String
  | 0, _, _ => []
  | _ + 1, _, [] => []
  | fuel + 1, prev, c :: t =>
    if c.isDigit && (match prev with
        | some p => !isWordChar p
        | Option.none => true) then
      let run := (c :: t).takeWhile Char.isDigit
      let rest := (c :: t).drop run.length
      let boundaryAfter := match rest with
        | [] => true
        | a :: _ => !isWordChar a
      if 10 ≤ run.length && run.length ≤ 18 && boundaryAfter then
        String.mk run :: findallCuentasAux fuel (run.getLast?) rest
      else findallCuentasAux fuel (run.getLast?) rest
    else findallCuentasAux fuel (some c) t

/-- The candidate account-number scanner of
`funcion_extraer_cuentas_origen_destino`. -/
def findallCuentas (s : String) : List String :=
  findallCuentasAux s.data.length Option.none s.data

/-! ## `field_extractors.funcion_extraer_cuentas_origen_destino` -/

/-- The third-party account search: the first scanned digit run whose length is
10, 11, 16 or 18, that differs from the document's own account and does not
start with `2024`/`2025` (year-like folios); empty when none qualifies. -/
def cuenta_tercero_de (cuentas : List String) (cuenta_propia : String) : String :=
  match cuentas.find? (fun cuenta =>
      (cuenta.length = 10 || cuenta.length = 11 ||
       cuenta.length = 16 || cuenta.length = 18) &&
      cuenta ≠ cuenta_propia &&
      !(("2024".data.isPrefixOf cuenta.data) || ("2025".data.isPrefixOf cuenta.data))) with
  | some c => c
  | Option.none => ""

/-- `field_extractors.funcion_extraer_cuentas_origen_destino`: scan the joined
block for account-length digit runs, pick the first third-party candidate, and
assign origin/destination from the debit/credit flag. -/
def funcion_extraer_cuentas_origen_destino (lineas_grupo : List String)
    (es_cargo : Bool) (cuenta_propia : String) : String × String :=
  let texto_completo := joinWith " " lineas_grupo
  let cuentas := findallCuentas texto_completo
  let cuenta_tercero := cuenta_tercero_de cuentas cuenta_propia
  if es_cargo then (cuenta_propia, cuenta_tercero)
  else (cuenta_tercero, cuenta_propia)

/-! ## `parsers/inbursa_parser.py`: transactions -/

/-- Anchored match of `^\s*(\d{1,2})\s+([A-Za-z]{3}\.?)` (both the
`patron_inicio_tx` block-start test and the `match_fecha` of
`funcion_procesar_bloque_transaccion`): optional whitespace, one or two digits
(three or more digits leave a digit in front of `\s+`, so no backtracking),
whitespace, three letters and an optional dot.  Returns the day and month
groups. -/
def matchFechaInb (s : String) : Option (String × String) :=
  let cs := s.data.dropWhile isSpaceChar
  let run := cs.takeWhile Char.isDigit
  if run.length = 0 || run.length > 2 then Option.none
  else
    let rest1 := cs.drop run.length
    let sp := rest1.takeWhile isSpaceChar
    if sp.isEmpty then Option.none
    else
      match rest1.drop sp.length with
      | a :: b :: c :: rest3 =>
        if a.isAlpha && b.isAlpha && c.isAlpha then
          match rest3 with
          | '.' :: _ => some (String.mk run, String.mk [a, b, c, '.'])
          | _ => some (String.mk run, String.mk [a, b, c])
        else Option.none
      | _ => Option.none

/-- The `mapa_meses` of `funcion_procesar_bloque_transaccion` (default `'00'`). -/
def mapa_meses_inb (m : String) : String :=
  if m = "ENE" then "01" else if m = "FEB" then "02" else if m = "MAR" then "03"
  else if m = "ABR" then "04" else if m = "MAY" then "05" else if m = "JUN" then "06"
  else if m = "JUL" then "07" else if m = "AGO" then "08" else if m = "SEP" then "09"
  else if m = "OCT" then "10" else if m = "NOV" then "11" else if m = "DIC" then "12"
  else "00"

/-- `inbursa_parser.funcion_clasificar_por_texto`: keyword fallback, biased to
debit. -/
def funcion_clasificar_por_texto (texto : String) : Bool :=
  let t := pyUpper texto
  if strContains t "DEPOSITO" || strContains t "ABONO" || strContains t "RECEPCION" ||
      strContains t "INTERESES GANADOS" || strContains t "TRASPASO DE TERCEROS" then
    false
  else true

/-- The transaction record emitted by the Inbursa block processor, restricted
to the fields the verified properties mention (date, classification, amount,
origin/destination accounts, and the `_saldo_calculado` threading field); the
purely descriptive string fields of the emitted dictionary (names, summary,
type, counterparty, reference, payment method, branch and the empty analysis
placeholders) are not carried. -/
structure TransaccionInb where
  fecha : String
  clasificacion : String
  monto : Dec
  cuentaOrigen : String
  cuentaDestino : String
  saldoCalculado : Dec
deriving DecidableEq, Repr

instance : Inhabited TransaccionInb := ⟨⟨"", "", 0, "", "", 0⟩⟩

/-- The amount scan of `funcion_procesar_bloque_transaccion`:
`re.findall(r'(\d{1,3}(?:,\d{3})*\.\d{2})')` over the space-joined block. -/
def inbursa_montos (lineas : List String) : List String :=
  findallMontosInb (joinWith " " lineas)

/-- The amount/running-balance assignment of
`funcion_procesar_bloque_transaccion`: with two or more matches the last one is
the stated balance and the one before it the amount; with exactly one match it
is the amount and the balance is 0; with none both are 0. -/
def inbursa_monto_saldo (lineas : List String) : Dec × Dec :=
  match (inbursa_montos lineas).reverse with
  | saldo :: monto :: _ => (funcion_extraer_monto monto, funcion_extraer_monto saldo)
  | [monto] => (funcion_extraer_monto monto, 0)
  | [] => (0, 0)

/-- The previous-balance lookup of `funcion_procesar_bloque_transaccion`: the
`_saldo_calculado` of the last already-emitted transaction, or
`metadatos.get('saldo_inicial', 0.0)` for the first one. -/
def inbursa_saldo_previo (metadatos : Dict) (transacciones_previas : List TransaccionInb) :
    Dec :=
  match transacciones_previas.getLast? with
  | some t => t.saldoCalculado
  | Option.none => dgetNumD metadatos "saldo_inicial" 0

/-- The debit/credit decision of `funcion_procesar_bloque_transaccion`: when
both the previous and the stated balance are positive, test the debit
hypothesis `|prev − monto − saldo| < 1.0`, then the credit hypothesis
`|prev + monto − saldo| < 1.0`, else (and when a balance is missing) fall back
to the keyword heuristic over the joined block text. -/
def inbursa_es_cargo (saldo_previo monto_tx saldo_momento : Dec)
    (texto_bloque : String) : Bool :=
  if 0 < saldo_previo ∧ 0 < saldo_momento then
    if Dec.dabs (saldo_previo - monto_tx - saldo_momento) < 1 then true
    else if Dec.dabs (saldo_previo + monto_tx - saldo_momento) < 1 then false
    else funcion_clasificar_por_texto texto_bloque
  else funcion_clasificar_por_texto texto_bloque

/-- `inbursa_parser.funcion_procesar_bloque_transaccion`: parse the block-start
date, scan the amounts, drop the block when the amount is zero (or no amount
parsed), classify mathematically against the threaded running balance, and
assign origin/destination accounts against `metadatos.get('numero_cuenta', '')`. -/
def funcion_procesar_bloque_transaccion (lineas : List String) (metadatos : Dict)
    (anio : String) (transacciones_previas : List TransaccionInb) :
    Option TransaccionInb :=
  match lineas with
  | [] => Option.none
  | l0 :: _ =>
    match matchFechaInb l0 with
    | Option.none => Option.none
    | some (dia_raw, mes_raw) =>
      let dia := zfill2 dia_raw
      let mes_str := pyUpper (pyReplace mes_raw "." "")
      let mes0 := mapa_meses_inb mes_str
      let mes_num := if mes0 = "00" then mapa_meses_inb (String.mk (mes_str.data.take 3))
        else mes0
      let fecha_fmt := dia ++ "/" ++ mes_num ++ "/" ++ anio
      let texto_bloque := joinWith " " lineas
      let ms := inbursa_monto_saldo lineas
      let monto_tx := ms.1
      let saldo_momento := ms.2
      if Dec.deq monto_tx 0 then Option.none
      else
        let saldo_previo := inbursa_saldo_previo metadatos transacciones_previas
        let es_cargo := inbursa_es_cargo saldo_previo monto_tx saldo_momento texto_bloque
        let clasificacion := if es_cargo then "Egreso" else "Ingreso"
        let cuentas := funcion_extraer_cuentas_origen_destino lineas es_cargo
          (dgetStrD metadatos "numero_cuenta" "")
        some
          { fecha := fecha_fmt
            clasificacion := clasificacion
            monto := monto_tx
            cuentaOrigen := cuentas.1
            cuentaDestino := cuentas.2
            saldoCalculado :=
              if 0 < saldo_momento then saldo_momento
              else if es_cargo then saldo_previo - monto_tx
              else saldo_previo + monto_tx }

/-- The block-grouping pass of `funcion_extraer_todas_transacciones`: a new
block opens at every line matching `patron_inicio_tx`; other lines extend the
current block; lines before the first match are dropped. -/
def inbursa_agrupar_bloques (lineas : List String) : List (List String) :=
  let paso := lineas.foldl
    (fun acc linea =>
      if (matchFechaInb linea).isSome then
        (acc.1 ++ (if acc.2 = ([] : List String) then [] else [acc.2]), [linea])
      else if acc.2 = ([] : List String) then acc
      else (acc.1, acc.2 ++ [linea]))
    (([] : List (List String)), ([] : List String))
  paso.1 ++ (if paso.2 = ([] : List String) then [] else [paso.2])

/-- The processing loop of `funcion_extraer_todas_transacciones`: blocks are
processed in document order, each seeing the transactions already emitted
(the source interleaves processing with grouping; with the grouped block list
in hand the interleaving is exactly this left fold). -/
def inbursa_procesar_bloques (bloques : List (List String)) (metadatos : Dict)
    (anio : String) : List TransaccionInb :=
  bloques.foldl
    (fun txs b =>
      match funcion_procesar_bloque_transaccion b metadatos anio txs with
      | some t => txs ++ [t]
      | Option.none => txs)
    []

/-- The section-start keys of `inbursa_parser.funcion_extraer_todas_transacciones`. -/
def inbursa_inicio_keys : List String :=
  ["DETALLE DE MOVIMIENTOS", "MOVIMIENTOS DEL PERIODO", "FECHA REFERENCIA CONCEPTO"]

/-- The fiscal-annex stop words of `funcion_extraer_todas_transacciones`. -/
def inbursa_stop_words : List String :=
  ["RESUMEN DEL CFDI", "TIMBRE FISCAL", "SELLO DIGITAL", "CADENA ORIGINAL",
   "GLOSARIO DE ABREVIATURAS"]

/-- `inbursa_parser.funcion_extraer_todas_transacciones`: locate the movements
section (first start key that occurs, case-insensitively), cut it at the
earliest stop word, split into lines, group into blocks and run the processing
loop with the `_anio_aux` year. -/
def funcion_extraer_todas_transacciones_inb (texto : String) (metadatos : Dict) :
    List TransaccionInb :=
  let lowerData := (pyLower texto).data
  match inbursa_inicio_keys.findSome?
      (fun key => findSubIdx (pyLower key).data lowerData) with
  | Option.none => []
  | some inicio =>
    let lowerResto := lowerData.drop inicio
    let fin := inbursa_stop_words.foldl
      (fun acc w =>
        match findSubIdx (pyLower w).data lowerResto with
        | some i => if inicio + i < acc then inicio + i else acc
        | Option.none => acc)
      texto.data.length
    let texto_seccion := String.mk ((texto.data.drop inicio).take (fin - inicio))
    let lineas := splitLines texto_seccion
    let anio_base := dgetStrD metadatos "_anio_aux" "2025"
    inbursa_procesar_bloques (inbursa_agrupar_bloques lineas) metadatos anio_base

/-! ## `field_extractors`: company-name cleaning and period formatting -/

/-- Collapse every maximal run of characters satisfying `p` into the single
character `r` (the `re.sub(r'-+', '-', ·)` / `re.sub(r'\s+', ' ', ·)` passes);
the flag records whether the previous character was part of a run. -/
def collapseRuns (p : Char → Bool) (r : Char) : Bool → List Char → List Char
  | _, [] => []
  | inRun, c :: t =>
    if p c then
      if inRun then collapseRuns p r true t
      else r :: collapseRuns p r true t
    else c :: collapseRuns p r false t

/-- `field_extractors.funcion_limpiar_nombre_empresa`: replace filename-illegal
characters by `-`, collapse `-` runs and whitespace runs, and strip. -/
def funcion_limpiar_nombre_empresa (nombre_empresa : String) : String :=
  if nombre_empresa = "" then ""
  else
    let invalidos := ['/', '\\', ':', '?', '"', '<', '>', '|']
    let paso1 := nombre_empresa.data.map (fun c => if invalidos.contains c then '-' else c)
    let paso2 := collapseRuns (fun c => c = '-') '-' false paso1
    let paso3 := collapseRuns isSpaceChar ' ' false paso2
    String.mk (trimChars paso3)

/-- Month names used by `funcion_formatear_periodo_archivo` (default `'MES'`). -/
def meses_periodo (m : String) : String :=
  if m = "01" then "ENE" else if m = "02" then "FEB" else if m = "03" then "MAR"
  else if m = "04" then "ABR" else if m = "05" then "MAY" else if m = "06" then "JUN"
  else if m = "07" then "JUL" else if m = "08" then "AGO" else if m = "09" then "SEP"
  else if m = "10" then "OCT" else if m = "11" then "NOV" else if m = "12" then "DIC"
  else "MES"

/-- Anchored match of `(\d{2})/(\d{2})/(\d{4})`. -/
def matchFechaSlashAt (cs : List Char) : Option ((String × String × String) × List Char) :=
  match cs with
  | d1 :: d2 :: '/' :: m1 :: m2 :: '/' :: y1 :: y2 :: y3 :: y4 :: rest =>
    if d1.isDigit && d2.isDigit && m1.isDigit && m2.isDigit &&
        y1.isDigit && y2.isDigit && y3.isDigit && y4.isDigit then
      some ((String.mk [d1, d2], String.mk [m1, m2], String.mk [y1, y2, y3, y4]), rest)
    else Option.none
  | _ => Option.none

/-- `re.findall(r'(\d{2})/(\d{2})/(\d{4})', ·)`. -/
def findallFechasSlashAux : Nat → List Char → List (String × String × String)
  | 0, _ => []
  | _ + 1, [] => []
  | fuel + 1, c :: t =>
    match matchFechaSlashAt (c :: t) with
    | some (g, rest) => g :: findallFechasSlashAux fuel rest
    | Option.none => findallFechasSlashAux fuel t

/-- `field_extractors.funcion_formatear_periodo_archivo`: the first two
`DD/MM/YYYY` matches give `DDMMMYYYY_DDMMMYYYY`; otherwise
`PERIODO_NO_DEFINIDO`. -/
def funcion_formatear_periodo_archivo (periodo_texto : String) : String :=
  if periodo_texto = "" then "PERIODO_NO_DEFINIDO"
  else
    match findallFechasSlashAux periodo_texto.data.length periodo_texto.data with
    | f1 :: f2 :: _ =>
      f1.1 ++ meses_periodo f1.2.1 ++ f1.2.2 ++ "_" ++ f2.1 ++ meses_periodo f2.2.1 ++ f2.2.2
    | _ => "PERIODO_NO_DEFINIDO"

/-! ## `parsers/inbursa_parser.py`: metadata dictionary -/

/-- The working fields `funcion_extraer_metadatos_completos` fills from the
regex passes over the document text (`datos` in the source, lines 97–162);
the claims quantify over these, so the regex extraction itself is left
abstract.  `anio_aux` models the optional `_anio_aux` entry set by the
period branch. -/
structure InbursaDatosRaw where
  nombre_empresa : String
  periodo : String
  numero_cuenta : String
  saldo_inicial : Dec
  saldo_final : Dec
  total_depositos : Dec
  total_retiros : Dec
  rfc : String
  saldo_promedio : Dec
  anio_aux : Option String
deriving Repr

/-- The dictionary `inbursa_parser.funcion_extraer_metadatos_completos`
returns (source lines 164–176): renamed Spanish display keys plus the
`_anio_aux` auxiliary entry, which is always present. -/
def inbursa_metadatos_dict (datos : InbursaDatosRaw) : Dict :=
  [("Nombre de la empresa del estado de cuenta",
      Val.s (funcion_limpiar_nombre_empresa datos.nombre_empresa)),
   ("Numero de cuenta del estado de cuenta", Val.s datos.numero_cuenta),
   ("Periodo del estado de cuenta",
      Val.s (funcion_formatear_periodo_archivo datos.periodo)),
   ("Saldo inicial de la cuenta", Val.n datos.saldo_inicial),
   ("Saldo final de la cuenta", Val.n datos.saldo_final),
   ("Saldo promedio del periodo", Val.n datos.saldo_promedio),
   ("Cantidad total de depositos", Val.n datos.total_depositos),
   ("Cantidad total de retiros", Val.n datos.total_retiros),
   ("Giro de la empresa", Val.s ""),
   ("RFC", Val.s datos.rfc),
   ("_anio_aux", Val.s (datos.anio_aux.getD "2025"))]

/-- The metadata keys of the dictionary produced by the Inbursa
`parsear_datos_generales` (the Banamex metadata uses the first nine of
these). -/
def inbursa_meta_keys : List String :=
  ["Nombre de la empresa del estado de cuenta",
   "Numero de cuenta del estado de cuenta",
   "Periodo del estado de cuenta",
   "Saldo inicial de la cuenta",
   "Saldo final de la cuenta",
   "Saldo promedio del periodo",
   "Cantidad total de depositos",
   "Cantidad total de retiros",
   "Giro de la empresa",
   "RFC",
   "_anio_aux"]

/-- The keys of every transaction dictionary the Inbursa block processor emits
(source lines 340–360); the Banamex and BBVA transaction dictionaries use
these same keys without `_saldo_calculado`. -/
def inbursa_tx_keys : List String :=
  ["Fecha de la transacción",
   "Nombre de la transacción",
   "Nombre resumido",
   "Tipo de transacción",
   "Clasificación",
   "Quien realiza o recibe el pago",
   "Monto de la transacción",
   "Numero de referencia o folio",
   "Numero de cuenta origen",
   "Numero de cuenta destino",
   "Metodo de pago",
   "Sucursal o ubicacion",
   "Giro de la transacción",
   "Giro sugerido",
   "Análisis monto",
   "Análisis contraparte",
   "Análisis naturaleza",
   "_saldo_calculado"]

/-! ## `main_extractor.py`: result persistence -/

/-- The per-document result `_parsear_texto` returns and `guardar_resultados`
receives. -/
structure Resultado where
  datos_generales : Dict
  transacciones : List Dict

/-- The content of the `*_DATOS.json` artifact written by
`guardar_resultados`: `json.dump(datos_generales, ...)` serialises the
metadata dictionary as is, every key included. -/
def guardar_datos_artifact (resultado_completo : Resultado) : Dict :=
  resultado_completo.datos_generales

/-! ## `parsers/banamex_empresa_parser.py`: transactions -/

/-- Anchored match of `^(\d{1,2}\s+[A-Z]{3})` with `re.IGNORECASE` (the
`m_fecha` of `funcion_procesar_grupo_transaccion`): one or two digits at the
very start, whitespace, three letters of either case; the group is the matched
text itself, whitespace included. -/
def matchFechaBmx (s : String) : Option String :=
  let run := s.data.takeWhile Char.isDigit
  if run.length = 0 || run.length > 2 then Option.none
  else
    let rest1 := s.data.drop run.length
    let sp := rest1.takeWhile isSpaceChar
    if sp.isEmpty then Option.none
    else
      match rest1.drop sp.length with
      | a :: b :: c :: _ =>
        if a.isAlpha && b.isAlpha && c.isAlpha then
          some (String.mk (run ++ sp ++ [a, b, c]))
        else Option.none
      | _ => Option.none

/-- The ordered keyword rules of `banamex_empresa_parser._determinar_clasificacion`:
explicit credit markers first, explicit debit markers second, debit by default. -/
def determinar_clasificacion_bmx (desc : String) : Bool :=
  let d := pyUpper desc
  if strContains d "PAGO RECIBIDO" || strContains d "DEPOSITO" ||
      strContains d "ABONO" || strContains d "DEVUELTO" ||
      strContains d "BONIFICACION" || strContains d "INTERESES GANADOS" then
    false
  else if strContains d "PAGO A" || strContains d "PAGO INTERBANCARIO" ||
      strContains d "CHEQUE" || strContains d "COMISION" ||
      strContains d "RETIRO" || strContains d "CARGO" ||
      strContains d "TRASPASO ENTRE" || strContains d "INVERSION" then
    true
  else true

/-- The transaction record emitted by the Banamex group processor, restricted
to the fields the verified properties mention; the descriptive string fields
of the emitted dictionary are not carried. -/
structure TransaccionBmx where
  fecha : String
  clasificacion : String
  monto : Dec
  cuentaOrigen : String
  cuentaDestino : String
deriving DecidableEq, Repr

instance : Inhabited TransaccionBmx := ⟨⟨"", "", 0, "", ""⟩⟩

/-- The amount scan of `funcion_procesar_grupo_transaccion`:
`re.findall(r'([\d,]+\.\d{2})')` over the space-joined block. -/
def banamex_montos (lineas : List String) : List String :=
  findallMontosBmx (joinWith " " lineas)

/-- `banamex_empresa_parser.funcion_procesar_grupo_transaccion`: parse the
leading date, pick the second-to-last amount (or the only one), classify by
keywords over the block with the chosen amounts removed, and assign accounts.
A block with no amount match is dropped; a zero amount is not rejected. -/
def funcion_procesar_grupo_transaccion (argv : List String) (lineas : List String)
    (anio : String) (cuenta_propia : String) : Option TransaccionBmx :=
  match lineas with
  | [] => Option.none
  | l0 :: _ =>
    match matchFechaBmx l0 with
    | Option.none => Option.none
    | some fecha_raw =>
      let bloque_texto := joinWith " " lineas
      let fecha_str := String.mk
        ((fecha_raw ++ "/" ++ anio).data.map (fun c => if c = ' ' then '/' else c))
      let fecha := funcion_extraer_fecha_normalizada argv fecha_str
      let montos := banamex_montos lineas
      match montos.reverse with
      | ultimo :: penultimo :: _ =>
        let monto := funcion_extraer_monto penultimo
        let texto_analisis := pyReplace (pyReplace bloque_texto ultimo "") penultimo ""
        let es_egreso := determinar_clasificacion_bmx texto_analisis
        let cuentas := funcion_extraer_cuentas_origen_destino lineas es_egreso cuenta_propia
        some
          { fecha := fecha
            clasificacion := if es_egreso then "Egreso" else "Ingreso"
            monto := monto
            cuentaOrigen := cuentas.1
            cuentaDestino := cuentas.2 }
      | [unico] =>
        let monto := funcion_extraer_monto unico
        let texto_analisis := pyReplace bloque_texto unico ""
        let es_egreso := determinar_clasificacion_bmx texto_analisis
        let cuentas := funcion_extraer_cuentas_origen_destino lineas es_egreso cuenta_propia
        some
          { fecha := fecha
            clasificacion := if es_egreso then "Egreso" else "Ingreso"
            monto := monto
            cuentaOrigen := cuentas.1
            cuentaDestino := cuentas.2 }
      | [] => Option.none

/-! ## `parsers/bbva_parser.py`: transactions -/

/-- Anchored match of the BBVA date-pair prefix
`^\s*(\d{2}/[A-Z]{3})\s+(\d{2}/[A-Z]{3})` (the `patron_fecha` of
`funcion_parsear_transaccion_individual`); every piece is fixed-width, so the
parse is deterministic.  Returns both date groups and the rest of the line. -/
def matchFechaBbvaPrefix (cs : List Char) :
    Option (String × String × List Char) :=
  let cs1 := cs.dropWhile isSpaceChar
  match cs1 with
  | d1 :: d2 :: '/' :: a1 :: a2 :: a3 :: rest1 =>
    if d1.isDigit && d2.isDigit && a1.isUpper && a2.isUpper && a3.isUpper then
      let sp := rest1.takeWhile isSpaceChar
      if sp.isEmpty then Option.none
      else
        match rest1.drop sp.length with
        | e1 :: e2 :: '/' :: b1 :: b2 :: b3 :: rest2 =>
          if e1.isDigit && e2.isDigit && b1.isUpper && b2.isUpper && b3.isUpper then
            some (String.mk [d1, d2, '/', a1, a2, a3],
                  String.mk [e1, e2, '/', b1, b2, b3], rest2)
          else Option.none
        | _ => Option.none
    else Option.none
  | _ => Option.none

/-- Anchored match of the BBVA base line
`^\s*(\d{2}/[A-Z]{3})\s+(\d{2}/[A-Z]{3})\s+([A-Z]\d{2})\s+(.*)` (the
`match_base`): the date pair, the one-letter-two-digit code and the rest of
the line.  The description group is returned as matched; the caller strips it. -/
def matchBaseBbva (s : String) : Option (String × String × String × String) :=
  match matchFechaBbvaPrefix s.data with
  | Option.none => Option.none
  | some (f1, f2, rest2) =>
    let sp2 := rest2.takeWhile isSpaceChar
    if sp2.isEmpty then Option.none
    else
      match rest2.drop sp2.length with
      | c :: d1 :: d2 :: rest3 =>
        if c.isUpper && d1.isDigit && d2.isDigit then
          let sp3 := rest3.takeWhile isSpaceChar
          if sp3.isEmpty then Option.none
          else some (f1, f2, String.mk [c, d1, d2], String.mk (rest3.drop sp3.length))
        else Option.none
      | _ => Option.none

/-- One column group `((?:[\d,.-]+\.\d{2})|(?:\s*-\s*))` of the BBVA column
pattern: the amount alternative first, else an optional-whitespace dash (its
trailing `\s*` is left to the following mandatory `\s+`, which does not change
matchability; the group text only ever feeds `funcion_extraer_monto`, where a
dash yields 0 either way). -/
def parseColG (cs : List Char) : Option (List Char × List Char) :=
  match matchMontoBbvaAt cs with
  | some (tok, rest) => some (tok, rest)
  | Option.none =>
    let sp := cs.takeWhile isSpaceChar
    match cs.drop sp.length with
    | '-' :: rest => some (sp ++ ['-'], rest)
    | _ => Option.none

/-- The tail `\s+G\s+G\s+.*$` of the BBVA column pattern at a fixed position. -/
def colsTail (cs : List Char) : Option (String × String) :=
  let sp1 := cs.takeWhile isSpaceChar
  if sp1.isEmpty then Option.none
  else
    match parseColG (cs.drop sp1.length) with
    | Option.none => Option.none
    | some (g2, r2) =>
      let sp2 := r2.takeWhile isSpaceChar
      if sp2.isEmpty then Option.none
      else
        match parseColG (r2.drop sp2.length) with
        | Option.none => Option.none
        | some (g3, r3) =>
          let sp3 := r3.takeWhile isSpaceChar
          if sp3.isEmpty then Option.none
          else some (String.mk g2, String.mk g3)

/-- Split search for the lazy `(.*?)` of the BBVA column pattern: the earliest
position from which the column tail matches.  (The engine enumerates
description-length before backtracking the separator; with the single
separator space of the BBVA layouts the two orders coincide, and the amounts
only feed `funcion_extraer_monto`, so no verified property depends on the
choice among multiple viable splits.) -/
def colsSearch (cs : List Char) : Nat → Option (String × String)
  | 0 => Option.none
  | fuel + 1 =>
    match colsTail cs with
    | some gs => some gs
    | Option.none =>
      match cs with
      | [] => Option.none
      | _ :: t => colsSearch t fuel

/-- The `patron_cols` match of `funcion_parsear_transaccion_individual`
(layouts `ca`/`ac`): the date pair, the code, a mandatory space, then the
lazily-matched description followed by the two column groups.  Returns the two
column-group texts. -/
def patronColsBbva (s : String) : Option (String × String) :=
  match matchFechaBbvaPrefix s.data with
  | Option.none => Option.none
  | some (_, _, rest2) =>
    let sp2 := rest2.takeWhile isSpaceChar
    if sp2.isEmpty then Option.none
    else
      match rest2.drop sp2.length with
      | c :: d1 :: d2 :: rest3 =>
        if c.isUpper && d1.isDigit && d2.isDigit then
          match rest3 with
          | sc :: _ =>
            if isSpaceChar sc then colsSearch (rest3.drop 1) (rest3.length + 1)
            else Option.none
          | [] => Option.none
        else Option.none
      | _ => Option.none

/-- The transaction record emitted by the BBVA transaction parser, restricted
to the fields the verified properties mention; the descriptive string fields
of the emitted dictionary are not carried. -/
structure TransaccionBbva where
  fecha : String
  clasificacion : String
  monto : Dec
  cuentaOrigen : String
  cuentaDestino : String
deriving DecidableEq, Repr

instance : Inhabited TransaccionBbva := ⟨⟨"", "", 0, "", ""⟩⟩

/-- The layout-dependent amount assignment of
`funcion_parsear_transaccion_individual` (v5.8 block): returns
`(monto_cargo, monto_abono)` or `none` for the paths that `return None`
before the final gate. -/
def bbva_montos_asignados (layout : String) (lineas_grupo : List String)
    (indice_linea_principal : Nat) (linea_principal : String) (codigo : String) :
    Option (Dec × Dec) :=
  let montos := findallMontosBbva linea_principal
  if layout = "simple" then
    match montos with
    | [] =>
      match lineas_grupo.get? (indice_linea_principal + 1) with
      | some siguiente =>
        let monto_siguiente := funcion_extraer_monto siguiente
        if 0 < monto_siguiente then
          if funcion_es_codigo_cargo codigo then some (monto_siguiente, 0)
          else some (0, monto_siguiente)
        else Option.none
      | Option.none => Option.none
    | primero :: _ =>
      let monto_transaccion := funcion_extraer_monto primero
      let es_cargo :=
        if codigo = "N06" && 2 ≤ montos.length then false
        else funcion_es_codigo_cargo codigo
      if es_cargo then some (monto_transaccion, 0) else some (0, monto_transaccion)
  else
    match patronColsBbva linea_principal with
    | Option.none =>
      match montos with
      | primero :: _ =>
        let monto_transaccion := funcion_extraer_monto primero
        if funcion_es_codigo_cargo codigo then some (monto_transaccion, 0)
        else some (0, monto_transaccion)
      | [] => Option.none
    | some (g2, g3) =>
      if layout = "ca" then some (funcion_extraer_monto g2, funcion_extraer_monto g3)
      else some (funcion_extraer_monto g3, funcion_extraer_monto g2)

/-- `bbva_parser.funcion_parsear_transaccion_individual`: locate the date line
of the group, parse the base fields, run the layout-dependent amount
assignment, and emit only when one of the two columns is strictly positive
(the final gate, which also fixes the classification). -/
def funcion_parsear_transaccion_individual (argv : List String)
    (lineas_grupo : List String) (metadatos : Dict) (layout : String) :
    Option TransaccionBbva :=
  match lineas_grupo.findIdx? (fun l => (matchFechaBbvaPrefix l.data).isSome) with
  | Option.none => Option.none
  | some indice =>
    let linea_principal := lineas_grupo.getD indice ""
    match matchBaseBbva linea_principal with
    | Option.none => Option.none
    | some (_, fecha_liq, codigo, _) =>
      match bbva_montos_asignados layout lineas_grupo indice linea_principal codigo with
      | Option.none => Option.none
      | some (monto_cargo, monto_abono) =>
        if 0 < monto_cargo then
          let cuentas := funcion_extraer_cuentas_origen_destino lineas_grupo true
            (dgetStrD metadatos "Numero de cuenta del estado de cuenta" "")
          some
            { fecha := funcion_extraer_fecha_normalizada argv fecha_liq
              clasificacion := "Egreso"
              monto := monto_cargo
              cuentaOrigen := cuentas.1
              cuentaDestino := cuentas.2 }
        else if 0 < monto_abono then
          let cuentas := funcion_extraer_cuentas_origen_destino lineas_grupo false
            (dgetStrD metadatos "Numero de cuenta del estado de cuenta" "")
          some
            { fecha := funcion_extraer_fecha_normalizada argv fecha_liq
              clasificacion := "Ingreso"
              monto := monto_abono
              cuentaOrigen := cuentas.1
              cuentaDestino := cuentas.2 }
        else Option.none

/-! ## Concrete fixtures for the verified scenarios -/

/-- A page whose text carries the Inbursa product fingerprint once and the
competitor brand substring `bbva` ten times (inside transfer descriptions). -/
def paginaMixta : String :=
  "rfc inbursact empresarial bbva bbva bbva bbva bbva bbva bbva bbva bbva bbva"

/-- Metadata dictionary declaring the end-to-end scenario figures under the
keys `validar_balance` reads. -/
def c3Metadata : Dict :=
  [("saldo_inicial", Val.s "1000.00"), ("saldo_final", Val.s "1200.00"),
   ("total_depositos", Val.s "500.00"), ("total_retiros", Val.s "300.00")]

/-- A transaction list summing to 500.00 of Ingreso and 300.00 of Egreso. -/
def c3Transacciones : List Dict :=
  [[("monto", Val.s "200.00"), ("clasificacion", Val.s "Ingreso")],
   [("monto", Val.s "300.00"), ("clasificacion", Val.s "Ingreso")],
   [("monto", Val.s "300.00"), ("clasificacion", Val.s "Egreso")]]

/-- A Banamex movement block whose second-to-last amount match is `0.00`. -/
def bloqueBmxCero : List String := ["01 ENE PAGO A PROVEEDOR 0.00 100.00"]

/-- A Banamex movement block with amount 100.00. -/
def bloqueBmxCien : List String := ["01 ENE PAGO A PROVEEDOR 100.00 200.00"]

/-- A Banamex movement block with no currency-formatted number. -/
def bloqueBmxSinMonto : List String := ["02 ENE SIN MONTO"]

/-- An Inbursa movement block: amount 100.00, stated running balance 400.00. -/
def bloqueInbW : List String := ["01 ABR. 1234567 SPEI ENVIADO 100.00 400.00"]

/-- Inbursa runtime metadata with the injected opening balance 500. -/
def mdInbW : Dict := [("saldo_inicial", Val.n 500)]

/-- The transaction `bloqueInbW` produces under `mdInbW`. -/
def txInbW : TransaccionInb := ⟨"01/04/2025", "Egreso", ⟨10000, 2⟩, "", "", ⟨40000, 2⟩⟩

/-- Raw Inbursa metadata whose own account number is `0123456789`. -/
def datosInbCx : InbursaDatosRaw :=
  ⟨"", "", "0123456789", 0, 0, 0, 0, "", 0, Option.none⟩

/-- The runtime metadata dictionary for `datosInbCx` as built by the pipeline:
the renamed display dictionary with the opening balance injected by
`parsear_transacciones` under `saldo_inicial`. -/
def mdInbCx : Dict := dset (inbursa_metadatos_dict datosInbCx) "saldo_inicial" (Val.n 500)

/-- An Inbursa movement block whose text contains the statement's own account
number. -/
def bloqueInbCx : List String := ["01 ABR. TRASPASO CHEQUE 0123456789 100.00 400.00"]

/-- The transaction `bloqueInbCx` produces under `mdInbCx`: a debit whose
origin is empty and whose destination is the document's own account. -/
def txInbCx : TransaccionInb :=
  ⟨"01/04/2025", "Egreso", ⟨10000, 2⟩, "", "0123456789", ⟨40000, 2⟩⟩

/-- A BBVA movement group in the simple layout. -/
def bloqueBbvaW : List String := ["02/ABR 02/ABR T17 SPEI ENVIADO 100.00"]

/-- The transaction `bloqueBbvaW` produces. -/
def txBbvaW : TransaccionBbva := ⟨"02/04/2025", "Egreso", ⟨10000, 2⟩, "", ""⟩

/-- The transaction `bloqueBmxCero` produces: zero amount, yet emitted. -/
def txBmxCero : TransaccionBmx := ⟨"01/01/2025", "Egreso", ⟨0, 2⟩, "", ""⟩

/-- The transaction `bloqueBmxCien` produces (period year handed: 2023). -/
def txBmxCien : TransaccionBmx := ⟨"01/01/2025", "Egreso", ⟨10000, 2⟩, "", ""⟩

/-- Raw Inbursa metadata with every field empty (the initialised `datos`
dictionary before any regex pass hits). -/
def datosInb0 : InbursaDatosRaw := ⟨"", "", "", 0, 0, 0, 0, "", 0, Option.none⟩

/-- Raw Inbursa metadata with nonzero extracted figures. -/
def datosInbC10 : InbursaDatosRaw :=
  ⟨"ACME SA DE CV", "", "1112223334", 1000, 1200, 500, 300, "XAXX010101000", 0,
   some "2025"⟩

/-- Parser-shaped transactions with nonzero amounts under the emitted keys. -/
def txsC10 : List Dict :=
  [[("Monto de la transacción", Val.n 500), ("Clasificación", Val.s "Ingreso")],
   [("Monto de la transacción", Val.n 300), ("Clasificación", Val.s "Egreso")]]

/-! ## Helper lemmas -/

/-- A lookup of a key outside a dictionary's key vocabulary misses. -/
theorem dget_eq_none_of_keys (d : Dict) (allowed : List String)
    (h : ∀ p ∈ d, p.1 ∈ allowed) (k : String) (hk : k ∉ allowed) :
    dget d k = Option.none := by
  unfold dget
  have hfind : List.find? (fun p => decide (p.1 = k)) d = Option.none := by
    apply List.find?_eq_none.mpr
    intro p hp
    simp only [decide_eq_true_eq]
    intro hpk
    exact hk (hpk ▸ h p hp)
  rw [hfind]
  rfl

/-- The numerator of a parsed `float` token is nonnegative. -/
theorem pyFloatToken_num_nonneg (cs : List Char) : 0 ≤ (pyFloatToken cs).num := by
  unfold pyFloatToken
  rcases cs.splitOn '.' with _ | ⟨ip, _ | ⟨fp, _ | _⟩⟩
  · exact le_rfl
  · exact Int.natCast_nonneg _
  · show 0 ≤ (digitsToNat ip : Int) * 10 ^ 2 + (digitsToNat fp : Int) * 10 ^ 0
    positivity
  · exact le_rfl

/-- A decimal with nonnegative numerator is nonnegative. -/
theorem Dec.zero_le_of_num {a : Dec} (h : 0 ≤ a.num) : (0 : Dec) ≤ a := by
  show Dec.le _ _
  unfold Dec.le
  have h0 : (0 : Dec).num = 0 := rfl
  have h1 : (0 : Dec).exp = 0 := rfl
  rw [h0, h1]
  simpa using h

/-- `funcion_extraer_monto` never returns a negative value (the `-` characters
are stripped before the digit search). -/
theorem funcion_extraer_monto_nonneg (s : String) : (0 : Dec) ≤ funcion_extraer_monto s := by
  unfold funcion_extraer_monto
  split
  · exact Dec.zero_le_of_num le_rfl
  · dsimp only
    split
    · exact Dec.zero_le_of_num (pyFloatToken_num_nonneg _)
    · exact Dec.zero_le_of_num le_rfl

/-! ## C1: bank identification -/

/-- C1 (counterexample): the identification step is not a weighted scorer in
which the tax-ID fingerprint outweighs brand mentions — a page carrying the
Inbursa product fingerprint once together with ten `bbva` brand mentions is
identified as `bbva_empresa`, not `inbursa_empresa`, because the `bbva`
substring rule is tested first. -/
theorem c1_contraejemplo_deteccion :
    detectar_banco_y_producto [paginaMixta] = "bbva_empresa" ∧
    detectar_banco_y_producto [paginaMixta] ≠ "inbursa_empresa" := by
  constructor
  · decide
  · decide

/-- C1 (amended): identification is an ordered substring test (`bbva` first,
then `inbursa`, then `banamex`): any non-empty text containing `inbursa` is
identified as `inbursa_empresa` only when `bbva` does not occur anywhere;
when `bbva` occurs (for instance in transfer descriptions), `bbva_empresa`
wins regardless of Inbursa fingerprints. -/
theorem c1_deteccion_por_orden (paginas : List String)
    (h1 : paginas.isEmpty = false)
    (h2 : strContains (pyLower (joinWith "" paginas)) "inbursa" = true)
    (h3 : strContains (pyLower (joinWith "" paginas)) "bbva" = false) :
    detectar_banco_y_producto paginas = "inbursa_empresa" := by
  unfold detectar_banco_y_producto
  simp [h1, h2, h3]

/-- C1 (witness): a concrete Inbursa statement text without `bbva` mentions is
routed to the Inbursa pipeline. -/
theorem c1_deteccion_testigo :
    detectar_banco_y_producto ["estado de cuenta inbursa"] = "inbursa_empresa" :=
  c1_deteccion_por_orden ["estado de cuenta inbursa"] (by decide) (by decide) (by decide)

/-! ## C2: parser dispatch -/

/-- C2: dispatching `_parsear_texto` to the `bbva_empresa` or `banamex_empresa`
pipeline raises `AttributeError` for every input, because the dispatched names
`parsear_datos_generales`/`parsear_transacciones` are defined only by the
Inbursa module: the BBVA module offers `funcion_parsear_bbva_empresa` /
`parse_bbva_empresa` and the Banamex module prefixes its entry points with
`funcion_`, so only Inbursa-identified documents reach a parsed result. -/
theorem c2_despacho_attribute_error :
    parsear_texto_error "bbva_empresa" = some PyError.attributeError ∧
    parsear_texto_error "banamex_empresa" = some PyError.attributeError ∧
    parsear_texto_error "inbursa_empresa" = Option.none ∧
    bbva_module_attrs.contains "parsear_datos_generales" = false ∧
    bbva_module_attrs.contains "parsear_transacciones" = false ∧
    banamex_module_attrs.contains "parsear_datos_generales" = false ∧
    banamex_module_attrs.contains "parsear_transacciones" = false ∧
    inbursa_module_attrs.contains "parsear_datos_generales" = true ∧
    inbursa_module_attrs.contains "parsear_transacciones" = true := by
  decide

/-! ## C9: auxiliary keys in the persisted DATOS artifact -/

/-- C9 (counterexample): the internal sub-record is serialised after all — the
metadata dictionary the Inbursa pipeline hands to `guardar_resultados` always
contains the `_anio_aux` key, and `json.dump` writes it into the persisted
`*_DATOS.json` artifact; shown here on a concrete document. -/
theorem c9_contraejemplo_anio_aux :
    "_anio_aux" ∈ dictKeys (guardar_datos_artifact ⟨inbursa_metadatos_dict datosInb0, []⟩) := by
  decide

/-- C9 (amended): for every Inbursa document, the persisted DATOS artifact
contains the auxiliary key `_anio_aux` (the key is unconditionally present in
the dictionary `funcion_extraer_metadatos_completos` returns, and
`guardar_resultados` serialises that dictionary unchanged). -/
theorem c9_anio_aux_serializado (datos : InbursaDatosRaw) (txs : List Dict) :
    "_anio_aux" ∈ dictKeys (guardar_datos_artifact ⟨inbursa_metadatos_dict datos, txs⟩) := by
  simp [guardar_datos_artifact, inbursa_metadatos_dict, dictKeys]

/-! ## Decimal comparison lemmas -/

/-- Value equality of decimals is symmetric. -/
theorem Dec.deq_symm {a b : Dec} (h : Dec.deq a b) : Dec.deq b a := h.symm

/-- Value equality of decimals is transitive. -/
theorem Dec.deq_trans {a b c : Dec} (h1 : Dec.deq a b) (h2 : Dec.deq b c) :
    Dec.deq a c := by
  unfold Dec.deq at h1 h2 ⊢
  apply mul_right_cancel₀ (pow_ne_zero b.exp (by norm_num : (10 : Int) ≠ 0))
  calc a.num * 10 ^ c.exp * 10 ^ b.exp
      = (a.num * 10 ^ b.exp) * 10 ^ c.exp := by ring
    _ = (b.num * 10 ^ a.exp) * 10 ^ c.exp := by rw [h1]
    _ = (b.num * 10 ^ c.exp) * 10 ^ a.exp := by ring
    _ = (c.num * 10 ^ b.exp) * 10 ^ a.exp := by rw [h2]
    _ = c.num * 10 ^ a.exp * 10 ^ b.exp := by ring

/-- Two figures equal in value differ by at most the `0.01` tolerance. -/
theorem diff_le_tol_of_deq (declarado calculado : Dec) (h : Dec.deq declarado calculado) :
    Dec.dabs (declarado - calculado) ≤ (⟨1, 2⟩ : Dec) := by
  show Dec.le (Dec.dabs (Dec.sub declarado calculado)) ⟨1, 2⟩
  unfold Dec.deq at h
  have hnum : (Dec.sub declarado calculado).num = 0 := by
    unfold Dec.sub
    dsimp only
    omega
  unfold Dec.le Dec.dabs
  rw [hnum]
  simp

/-! ## C3: end-to-end balance validation scenario -/

/-- C3: with metadata declaring opening balance 1000.00, deposits 500.00,
withdrawals 300.00 and closing balance 1200.00, `validar_balance` reports
`totales_coherentes` and `balance_coherente` for every transaction list whose
Ingreso amounts sum to 500.00 and whose Egreso amounts sum to 300.00, each
comparison within the fixed `Decimal('0.01')` tolerance. -/
theorem c3_validar_balance_escenario (transacciones : List Dict)
    (hdep : Dec.deq (totales_calculados transacciones).1 500)
    (hret : Dec.deq (totales_calculados transacciones).2 300) :
    (validar_balance c3Metadata transacciones).totales_coherentes = true ∧
    (validar_balance c3Metadata transacciones).balance_coherente = true := by
  have hd : Dec.deq (⟨50000, 2⟩ : Dec) (totales_calculados transacciones).1 :=
    Dec.deq_trans (by decide) (Dec.deq_symm hdep)
  have hr : Dec.deq (⟨30000, 2⟩ : Dec) (totales_calculados transacciones).2 :=
    Dec.deq_trans (by decide) (Dec.deq_symm hret)
  have hdd := diff_le_tol_of_deq _ _ hd
  have hrr := diff_le_tol_of_deq _ _ hr
  unfold validar_balance
  dsimp only
  constructor
  · rw [decide_eq_true_eq]
    have e1 : limpiar_monto (dgetD c3Metadata "total_depositos" (Val.s "0")) =
        (⟨50000, 2⟩ : Dec) := by decide
    have e2 : limpiar_monto (dgetD c3Metadata "total_retiros" (Val.s "0")) =
        (⟨30000, 2⟩ : Dec) := by decide
    rw [e1, e2]
    exact ⟨hdd, hrr⟩
  · decide

/-- C3 (witness): a concrete list with Ingreso transactions of 200.00 and
300.00 and one Egreso of 300.00 satisfies the scenario. -/
theorem c3_validar_balance_testigo :
    (validar_balance c3Metadata c3Transacciones).totales_coherentes = true ∧
    (validar_balance c3Metadata c3Transacciones).balance_coherente = true :=
  c3_validar_balance_escenario c3Transacciones (by decide) (by decide)

/-! ## C10: validation against parser-produced dictionaries -/

/-- Parser-shaped transaction dictionaries contribute nothing to the
validator's sums: `tx.get('clasificacion')` misses on every emitted key. -/
theorem totales_calculados_cero (txs : List Dict)
    (h : ∀ tx ∈ txs, ∀ p ∈ tx, p.1 ∈ inbursa_tx_keys) :
    totales_calculados txs = (0, 0) := by
  unfold totales_calculados
  induction txs with
  | nil => rfl
  | cons tx t ih =>
    rw [List.foldl_cons]
    have hcl : dget tx "clasificacion" = Option.none :=
      dget_eq_none_of_keys tx inbursa_tx_keys (h tx (by simp)) _ (by decide)
    simp only [hcl]
    simp only [reduceCtorEq, if_false]
    exact ih (fun tx2 h2 => h tx2 (List.mem_cons_of_mem _ h2))

/-- C10: `validar_balance` applied to what the parsers actually produce always
reports both flags true, whatever the extracted figures: the validator reads
`saldo_inicial`, `saldo_final`, `total_depositos`, `total_retiros`, `monto`
and `clasificacion`, while the parser dictionaries carry the Spanish display
keys (`Saldo inicial de la cuenta`, `Monto de la transacción`,
`Clasificación`, …), so every lookup falls back to its zero default and the
validator compares 0 against 0. -/
theorem c10_validacion_trivial (datos : InbursaDatosRaw) (transacciones : List Dict)
    (htx : ∀ tx ∈ transacciones, ∀ p ∈ tx, p.1 ∈ inbursa_tx_keys) :
    (validar_balance (inbursa_metadatos_dict datos) transacciones).totales_coherentes = true ∧
    (validar_balance (inbursa_metadatos_dict datos) transacciones).balance_coherente = true := by
  have hkeys : ∀ p ∈ inbursa_metadatos_dict datos, p.1 ∈ inbursa_meta_keys := by
    intro p hp
    simp only [inbursa_metadatos_dict, List.mem_cons, List.not_mem_nil, or_false] at hp
    rcases hp with h|h|h|h|h|h|h|h|h|h|h <;> subst h <;> (dsimp only; decide)
  have h1 := dget_eq_none_of_keys _ _ hkeys "saldo_inicial" (by decide)
  have h2 := dget_eq_none_of_keys _ _ hkeys "saldo_final" (by decide)
  have h3 := dget_eq_none_of_keys _ _ hkeys "total_depositos" (by decide)
  have h4 := dget_eq_none_of_keys _ _ hkeys "total_retiros" (by decide)
  have hcalc := totales_calculados_cero transacciones htx
  unfold validar_balance
  unfold dgetD
  rw [h1, h2, h3, h4, hcalc]
  constructor <;> decide

/-- C10 (witness): a parser-shaped metadata dictionary with nonzero figures
and transactions with nonzero amounts still validates as coherent. -/
theorem c10_validacion_trivial_testigo :
    (validar_balance (inbursa_metadatos_dict datosInbC10) txsC10).totales_coherentes = true ∧
    (validar_balance (inbursa_metadatos_dict datosInbC10) txsC10).balance_coherente = true :=
  c10_validacion_trivial datosInbC10 txsC10 (by decide)

/-! ## C5: totality of the monetary normalizers -/

/-- A character list with no digits has an empty leading digit run. -/
theorem takeWhile_digits_nil (cs : List Char) (h : ∀ c ∈ cs, c.isDigit = false) :
    cs.takeWhile Char.isDigit = [] := by
  cases cs with
  | nil => rfl
  | cons c t =>
    have := h c (by simp)
    simp [List.takeWhile, this]

/-- `Decimal()` rejects (raises `InvalidOperation` on) any filtered text with
no digit in it. -/
theorem pyDecimalParse_none_of_no_digit (cs : List Char)
    (h : ∀ c ∈ cs, c.isDigit = false) : pyDecimalParse cs = Option.none := by
  unfold pyDecimalParse
  split
  next neg cs1 heq =>
    have hcs1 : ∀ c ∈ cs1, c.isDigit = false := by
      split at heq
      · cases heq
        exact fun c hc => h c (List.mem_cons_of_mem _ hc)
      · cases heq
        exact h
    dsimp only
    rw [takeWhile_digits_nil cs1 hcs1]
    simp only [List.length_nil, List.drop_zero]
    split
    · simp
    · next _a rest =>
      have hrest : ∀ c ∈ rest, c.isDigit = false :=
        fun c hc => hcs1 c (List.mem_cons_of_mem _ hc)
      rw [takeWhile_digits_nil rest hrest]
      simp
    · rfl

/-- The digit search of `funcion_extraer_monto` finds nothing in digit-free
text. -/
theorem searchMontoToken_none (cs : List Char) (h : ∀ c ∈ cs, c.isDigit = false) :
    searchMontoToken cs = Option.none := by
  induction cs with
  | nil => rfl
  | cons c t ih =>
    have hc := h c (by simp)
    unfold searchMontoToken
    simp only [hc, Bool.false_eq_true, if_false]
    exact ih (fun c2 h2 => h c2 (List.mem_cons_of_mem _ h2))

/-- Stripping only removes characters. -/
theorem mem_trimChars {c : Char} {cs : List Char} (h : c ∈ trimChars cs) : c ∈ cs := by
  unfold trimChars at h
  rw [List.mem_reverse] at h
  replace h := List.Sublist.mem h (List.dropWhile_sublist _)
  rw [List.mem_reverse] at h
  exact List.Sublist.mem h (List.dropWhile_sublist _)

/-- C5: the monetary normalizers are total: `limpiar_monto` and
`funcion_extraer_monto` return a numeric value for every input — including
`None`, the empty string and arbitrary malformed text (the `Decimal` and
`float` raise sites sit inside `try/except` blocks) — and on text with no
digits at all both return 0. -/
theorem c5_normalizadores_totales (s : String)
    (hnd : ∀ c ∈ s.data, c.isDigit = false) :
    limpiar_monto (Val.s s) = 0 ∧
    funcion_extraer_monto s = 0 ∧
    limpiar_monto Val.none = 0 ∧
    funcion_extraer_monto_py Option.none = 0 ∧
    (∀ v : Val, ∃ q : Dec, limpiar_monto v = q) ∧
    (∀ t : String, ∃ q : Dec, funcion_extraer_monto t = q) := by
  refine ⟨?_, ?_, rfl, rfl, fun v => ⟨_, rfl⟩, fun t => ⟨_, rfl⟩⟩
  · unfold limpiar_monto
    dsimp only
    have hf : ∀ c ∈ limpiarFiltro s.data, c.isDigit = false := by
      intro c hc
      exact hnd c (List.mem_of_mem_filter hc)
    by_cases hl : limpiarFiltro s.data = []
    · simp [hl]
    · simp [hl, pyDecimalParse_none_of_no_digit _ hf]
  · unfold funcion_extraer_monto
    by_cases hs : s = ""
    · simp [hs]
    · rw [if_neg hs]
      dsimp only
      have hn : searchMontoToken (trimChars (s.data.filter
          (fun c => c ≠ ',' && c ≠ '$' && c ≠ '-'))) = Option.none := by
        apply searchMontoToken_none
        intro c hc
        exact hnd c (List.mem_of_mem_filter (mem_trimChars hc))
      rw [hn]

/-- C5 (witness): the malformed monetary text `"$$--.."` normalizes to 0 in
both normalizers without raising. -/
theorem c5_normalizadores_testigo :
    limpiar_monto (Val.s "$$--..") = 0 ∧
    funcion_extraer_monto "$$--.." = 0 ∧
    limpiar_monto Val.none = 0 ∧
    funcion_extraer_monto_py Option.none = 0 ∧
    (∀ v : Val, ∃ q : Dec, limpiar_monto v = q) ∧
    (∀ t : String, ∃ q : Dec, funcion_extraer_monto t = q) :=
  c5_normalizadores_totales "$$--.." (by decide)

/-! ## C4: classification and amount of emitted transactions -/

/-- A nonnegative decimal distinct from zero in value is strictly positive. -/
theorem Dec.pos_of_nonneg_ne {a : Dec} (h1 : (0 : Dec) ≤ a) (h2 : ¬ Dec.deq a 0) :
    (0 : Dec) < a := by
  show Dec.lt _ _
  replace h1 : Dec.le 0 a := h1
  unfold Dec.le at h1
  unfold Dec.deq at h2
  unfold Dec.lt
  have e0 : (0 : Dec).num = 0 := rfl
  have e1 : (0 : Dec).exp = 0 := rfl
  rw [e0, e1] at h1 ⊢
  rw [e0, e1] at h2
  simp only [zero_mul, pow_zero, mul_one] at h1 h2 ⊢
  omega

/-- The Inbursa block amount is never negative. -/
theorem inbursa_monto_nonneg (lineas : List String) :
    (0 : Dec) ≤ (inbursa_monto_saldo lineas).1 := by
  unfold inbursa_monto_saldo
  split
  · exact funcion_extraer_monto_nonneg _
  · exact funcion_extraer_monto_nonneg _
  · exact Dec.zero_le_of_num le_rfl

/-- Every transaction the BBVA parser emits passed the strictly-positive
amount gate with a binary classification. -/
theorem bbva_emitida_positiva (argv : List String) (lineas : List String) (md : Dict)
    (layout : String) (tx : TransaccionBbva)
    (htx : funcion_parsear_transaccion_individual argv lineas md layout = some tx) :
    (tx.clasificacion = "Ingreso" ∨ tx.clasificacion = "Egreso") ∧ (0 : Dec) < tx.monto := by
  unfold funcion_parsear_transaccion_individual at htx
  split at htx
  · cases htx
  · dsimp only at htx
    split at htx
    · cases htx
    · split at htx
      · cases htx
      · split at htx
        · cases htx
          exact ⟨Or.inr rfl, by assumption⟩
        · split at htx
          · cases htx
            exact ⟨Or.inl rfl, by assumption⟩
          · cases htx

/-- Every transaction the Inbursa block processor emits has a binary
classification and a strictly positive amount (zero amounts are dropped by
the `monto_tx == 0` guard and amounts are never negative). -/
theorem inbursa_emitida_positiva (lineas : List String) (md : Dict) (anio : String)
    (prev : List TransaccionInb) (tx : TransaccionInb)
    (htx : funcion_procesar_bloque_transaccion lineas md anio prev = some tx) :
    (tx.clasificacion = "Ingreso" ∨ tx.clasificacion = "Egreso") ∧ (0 : Dec) < tx.monto := by
  unfold funcion_procesar_bloque_transaccion at htx
  split at htx
  · cases htx
  · split at htx
    · cases htx
    · dsimp only at htx
      split at htx
      · cases htx
      · next hdeq =>
        cases htx
        constructor
        · dsimp only
          split <;> simp
        · exact Dec.pos_of_nonneg_ne (inbursa_monto_nonneg _) hdeq

/-- Every transaction the Banamex group processor emits has a binary
classification and a nonnegative amount (but no strict-positivity gate). -/
theorem banamex_emitida_clasificada (argv : List String) (lineas : List String)
    (anio : String) (cta : String) (tx : TransaccionBmx)
    (htx : funcion_procesar_grupo_transaccion argv lineas anio cta = some tx) :
    (tx.clasificacion = "Ingreso" ∨ tx.clasificacion = "Egreso") ∧ (0 : Dec) ≤ tx.monto := by
  unfold funcion_procesar_grupo_transaccion at htx
  split at htx
  · cases htx
  · split at htx
    · cases htx
    · dsimp only at htx
      split at htx
      · cases htx
        refine ⟨?_, funcion_extraer_monto_nonneg _⟩
        dsimp only
        split <;> simp
      · cases htx
        refine ⟨?_, funcion_extraer_monto_nonneg _⟩
        dsimp only
        split <;> simp
      · cases htx

/-- A Banamex block with no currency-formatted amount is dropped. -/
theorem banamex_sin_monto_descartada (argv : List String) (lineas : List String)
    (anio : String) (cta : String) (h : banamex_montos lineas = []) :
    funcion_procesar_grupo_transaccion argv lineas anio cta = Option.none := by
  unfold funcion_procesar_grupo_transaccion
  split
  · rfl
  · split
    · rfl
    · dsimp only
      rw [h]
      rfl

/-- C4 (counterexample): the Banamex extractor can emit a transaction whose
amount is zero — a block whose second-to-last amount match is `0.00` is
emitted, not dropped, violating the strictly-positive-amount invariant. -/
theorem c4_contraejemplo_monto_cero :
    funcion_procesar_grupo_transaccion [] bloqueBmxCero "2025" "" = some txBmxCero ∧
    Dec.deq txBmxCero.monto 0 ∧
    ¬ ((0 : Dec) < txBmxCero.monto) := by
  refine ⟨by decide, by decide, by decide⟩

/-- C4 (amended): every transaction emitted by any of the three per-bank
extractors has classification exactly `Ingreso` or `Egreso`; the BBVA and
Inbursa extractors additionally guarantee a strictly positive amount and
drop non-positive/unparsable blocks, while the Banamex extractor drops
blocks with no parsable amount but can emit a zero amount (its amount is
still never negative). -/
theorem c4_clasificacion_y_monto :
    (∀ (argv lineas : List String) (md : Dict) (layout : String) (tx : TransaccionBbva),
      funcion_parsear_transaccion_individual argv lineas md layout = some tx →
      (tx.clasificacion = "Ingreso" ∨ tx.clasificacion = "Egreso") ∧ (0 : Dec) < tx.monto) ∧
    (∀ (lineas : List String) (md : Dict) (anio : String)
        (prev : List TransaccionInb) (tx : TransaccionInb),
      funcion_procesar_bloque_transaccion lineas md anio prev = some tx →
      (tx.clasificacion = "Ingreso" ∨ tx.clasificacion = "Egreso") ∧ (0 : Dec) < tx.monto) ∧
    (∀ (argv lineas : List String) (anio cta : String) (tx : TransaccionBmx),
      funcion_procesar_grupo_transaccion argv lineas anio cta = some tx →
      (tx.clasificacion = "Ingreso" ∨ tx.clasificacion = "Egreso") ∧ (0 : Dec) ≤ tx.monto) ∧
    (∀ (argv lineas : List String) (anio cta : String),
      banamex_montos lineas = [] →
      funcion_procesar_grupo_transaccion argv lineas anio cta = Option.none) :=
  ⟨bbva_emitida_positiva, inbursa_emitida_positiva,
   banamex_emitida_clasificada, banamex_sin_monto_descartada⟩

/-- C4 (witness): concrete blocks exercising all four parts of the amended
claim. -/
theorem c4_clasificacion_y_monto_testigo :
    ((txBbvaW.clasificacion = "Ingreso" ∨ txBbvaW.clasificacion = "Egreso") ∧
      (0 : Dec) < txBbvaW.monto) ∧
    ((txInbW.clasificacion = "Ingreso" ∨ txInbW.clasificacion = "Egreso") ∧
      (0 : Dec) < txInbW.monto) ∧
    ((txBmxCien.clasificacion = "Ingreso" ∨ txBmxCien.clasificacion = "Egreso") ∧
      (0 : Dec) ≤ txBmxCien.monto) ∧
    funcion_procesar_grupo_transaccion [] bloqueBmxSinMonto "2025" "" = Option.none :=
  ⟨c4_clasificacion_y_monto.1 [] bloqueBbvaW [] "simple" txBbvaW (by decide),
   c4_clasificacion_y_monto.2.1 bloqueInbW mdInbW "2025" [] txInbW (by decide),
   c4_clasificacion_y_monto.2.2.1 [] bloqueBmxCien "2023" "" txBmxCien (by decide),
   c4_clasificacion_y_monto.2.2.2 [] bloqueBmxSinMonto "2025" "" (by decide)⟩

/-! ## C6: mathematical debit/credit inference -/

/-- The string form of the prioritized boolean decision chain. -/
theorem cadena_clasificacion (A B : Prop) [Decidable A] [Decidable B] (C : Bool) :
    (if (if A then true else if B then false else C) = true then "Egreso" else "Ingreso") =
    (if A then "Egreso" else if B then "Ingreso"
     else if C then "Egreso" else "Ingreso") := by
  by_cases hA : A
  · simp [hA]
  · by_cases hB : B
    · simp [hA, hB]
    · cases C <;> simp [hA, hB]

/-- C6: the Inbursa classifier threads a running previous balance in document
order — the first block reads `metadatos.get('saldo_inicial', 0.0)` and every
later block the previous transaction's `_saldo_calculado` — and when both the
previous and the stated balance are positive it classifies Egreso when
`|prev − amount − stated| < 1.0`, else Ingreso when
`|prev + amount − stated| < 1.0`, else by the keyword heuristic. -/
theorem c6_clasificacion_matematica (lineas : List String) (metadatos : Dict)
    (anio : String) (prev : List TransaccionInb) (tx : TransaccionInb)
    (htx : funcion_procesar_bloque_transaccion lineas metadatos anio prev = some tx)
    (hprev : (0 : Dec) < inbursa_saldo_previo metadatos prev)
    (hsaldo : (0 : Dec) < (inbursa_monto_saldo lineas).2) :
    (tx.clasificacion =
      (if Dec.dabs (inbursa_saldo_previo metadatos prev - (inbursa_monto_saldo lineas).1 -
            (inbursa_monto_saldo lineas).2) < 1 then "Egreso"
       else if Dec.dabs (inbursa_saldo_previo metadatos prev + (inbursa_monto_saldo lineas).1 -
            (inbursa_monto_saldo lineas).2) < 1 then "Ingreso"
       else if funcion_clasificar_por_texto (joinWith " " lineas) then "Egreso"
       else "Ingreso")) ∧
    inbursa_saldo_previo metadatos [] = dgetNumD metadatos "saldo_inicial" 0 ∧
    (∀ (ts : List TransaccionInb) (t : TransaccionInb),
      inbursa_saldo_previo metadatos (ts ++ [t]) = t.saldoCalculado) := by
  refine ⟨?_, rfl, ?_⟩
  · unfold funcion_procesar_bloque_transaccion at htx
    split at htx
    · cases htx
    · split at htx
      · cases htx
      · dsimp only at htx
        split at htx
        · cases htx
        · cases htx
          dsimp only
          unfold inbursa_es_cargo
          rw [if_pos (And.intro hprev hsaldo)]
          exact cadena_clasificacion _ _ _
  · intro ts t
    unfold inbursa_saldo_previo
    rw [List.getLast?_concat]

/-- C6 (witness): with opening balance 500, amount 100.00 and stated balance
400.00, the debit hypothesis `|500 − 100 − 400| < 1` resolves and the block
is classified Egreso. -/
theorem c6_clasificacion_testigo : txInbW.clasificacion = "Egreso" :=
  ((c6_clasificacion_matematica bloqueInbW mdInbW "2025" [] txInbW
      (by decide) (by decide) (by decide)).1).trans (by decide)

/-! ## C7: origin/destination account assignment -/

/-- The selected third-party account is empty or differs from the own account
(the search filters out the own account number). -/
theorem cuenta_tercero_vacia_o_distinta (cuentas : List String) (propia : String) :
    cuenta_tercero_de cuentas propia = "" ∨ cuenta_tercero_de cuentas propia ≠ propia := by
  unfold cuenta_tercero_de
  split
  · next c hc =>
    right
    have hp := List.find?_some hc
    simp only [Bool.and_eq_true, decide_eq_true_eq] at hp
    exact hp.1.2
  · left
    rfl

/-- The account assignment of `funcion_extraer_cuentas_origen_destino`: for a
debit the own account is the origin and the destination is empty or a
different account; for a credit, symmetrically. -/
theorem cuentas_asignacion (lineas : List String) (propia : String) :
    ((funcion_extraer_cuentas_origen_destino lineas true propia).1 = propia ∧
     ((funcion_extraer_cuentas_origen_destino lineas true propia).2 = "" ∨
      (funcion_extraer_cuentas_origen_destino lineas true propia).2 ≠ propia)) ∧
    ((funcion_extraer_cuentas_origen_destino lineas false propia).2 = propia ∧
     ((funcion_extraer_cuentas_origen_destino lineas false propia).1 = "" ∨
      (funcion_extraer_cuentas_origen_destino lineas false propia).1 ≠ propia)) := by
  unfold funcion_extraer_cuentas_origen_destino
  exact ⟨⟨rfl, cuenta_tercero_vacia_o_distinta _ _⟩,
         ⟨rfl, cuenta_tercero_vacia_o_distinta _ _⟩⟩

/-- Account consistency for a record whose classification string and account
pair are produced from the same debit/credit flag. -/
theorem asignacion_por_clasificacion (lineas : List String) (E : Bool) (propia : String)
    (clasif o d : String)
    (hc : clasif = (if E then "Egreso" else "Ingreso"))
    (ho : o = (funcion_extraer_cuentas_origen_destino lineas E propia).1)
    (hd : d = (funcion_extraer_cuentas_origen_destino lineas E propia).2) :
    (clasif = "Egreso" → o = propia ∧ (d = "" ∨ d ≠ propia)) ∧
    (clasif = "Ingreso" → d = propia ∧ (o = "" ∨ o ≠ propia)) := by
  subst hc ho hd
  cases E
  · exact ⟨fun h => absurd h (by decide),
           fun _ => (cuentas_asignacion lineas propia).2⟩
  · exact ⟨fun _ => (cuentas_asignacion lineas propia).1,
           fun h => absurd h (by decide)⟩

/-- Account consistency of every transaction the BBVA parser emits, relative
to the own account it reads under `Numero de cuenta del estado de cuenta`. -/
theorem bbva_cuentas_consistentes (argv lineas : List String) (md : Dict)
    (layout : String) (tx : TransaccionBbva)
    (htx : funcion_parsear_transaccion_individual argv lineas md layout = some tx) :
    (tx.clasificacion = "Egreso" →
      tx.cuentaOrigen = dgetStrD md "Numero de cuenta del estado de cuenta" "" ∧
      (tx.cuentaDestino = "" ∨
       tx.cuentaDestino ≠ dgetStrD md "Numero de cuenta del estado de cuenta" "")) ∧
    (tx.clasificacion = "Ingreso" →
      tx.cuentaDestino = dgetStrD md "Numero de cuenta del estado de cuenta" "" ∧
      (tx.cuentaOrigen = "" ∨
       tx.cuentaOrigen ≠ dgetStrD md "Numero de cuenta del estado de cuenta" "")) := by
  unfold funcion_parsear_transaccion_individual at htx
  split at htx
  · cases htx
  · dsimp only at htx
    split at htx
    · cases htx
    · split at htx
      · cases htx
      · split at htx
        · cases htx
          exact asignacion_por_clasificacion lineas true _ _ _ _ rfl rfl rfl
        · split at htx
          · cases htx
            exact asignacion_por_clasificacion lineas false _ _ _ _ rfl rfl rfl
          · cases htx

/-- Account consistency of every transaction the Banamex parser emits,
relative to the own account passed in. -/
theorem banamex_cuentas_consistentes (argv lineas : List String) (anio cta : String)
    (tx : TransaccionBmx)
    (htx : funcion_procesar_grupo_transaccion argv lineas anio cta = some tx) :
    (tx.clasificacion = "Egreso" →
      tx.cuentaOrigen = cta ∧ (tx.cuentaDestino = "" ∨ tx.cuentaDestino ≠ cta)) ∧
    (tx.clasificacion = "Ingreso" →
      tx.cuentaDestino = cta ∧ (tx.cuentaOrigen = "" ∨ tx.cuentaOrigen ≠ cta)) := by
  unfold funcion_procesar_grupo_transaccion at htx
  split at htx
  · cases htx
  · split at htx
    · cases htx
    · dsimp only at htx
      split at htx
      · cases htx
        exact asignacion_por_clasificacion _ _ _ _ _ _ rfl rfl rfl
      · cases htx
        exact asignacion_por_clasificacion _ _ _ _ _ _ rfl rfl rfl
      · cases htx

/-- The conclusions of `cuentas_asignacion` for an empty own account. -/
theorem origen_vacio_por_clasificacion (lineas : List String) (E : Bool) :
    ((if E then "Egreso" else "Ingreso") = "Egreso" →
      (funcion_extraer_cuentas_origen_destino lineas E "").1 = "") ∧
    ((if E then "Egreso" else "Ingreso") = "Ingreso" →
      (funcion_extraer_cuentas_origen_destino lineas E "").2 = "") := by
  cases E
  · exact ⟨fun h => absurd h (by decide), fun _ => rfl⟩
  · exact ⟨fun _ => rfl, fun h => absurd h (by decide)⟩

/-- The Inbursa block processor reads the own account under the key
`numero_cuenta`, which the runtime metadata dictionary never contains, so the
own-account side of every emitted transaction is the empty string. -/
theorem inbursa_cuenta_propia_vacia (lineas : List String) (md : Dict) (anio : String)
    (prev : List TransaccionInb) (tx : TransaccionInb)
    (hmd : ∀ p ∈ md, p.1 ∈ inbursa_meta_keys ++ ["saldo_inicial"])
    (htx : funcion_procesar_bloque_transaccion lineas md anio prev = some tx) :
    (tx.clasificacion = "Egreso" → tx.cuentaOrigen = "") ∧
    (tx.clasificacion = "Ingreso" → tx.cuentaDestino = "") := by
  have hprop : dgetStrD md "numero_cuenta" "" = "" := by
    unfold dgetStrD
    rw [dget_eq_none_of_keys md _ hmd "numero_cuenta" (by decide)]
  unfold funcion_procesar_bloque_transaccion at htx
  split at htx
  · cases htx
  · split at htx
    · cases htx
    · dsimp only at htx
      split at htx
      · cases htx
      · cases htx
        dsimp only
        rw [hprop]
        exact origen_vacio_por_clasificacion _ _

/-- C7 (counterexample): an emitted Inbursa debit whose origin account is
empty even though the statement's own account number is known (it sits under
`Numero de cuenta del estado de cuenta`) and whose destination account IS the
own account — the block processor reads the own account under the mismatched
key `numero_cuenta`, so the own-account filter never fires. -/
theorem c7_contraejemplo_inbursa :
    funcion_procesar_bloque_transaccion bloqueInbCx mdInbCx "2025" [] = some txInbCx ∧
    dgetStrD mdInbCx "Numero de cuenta del estado de cuenta" "" = "0123456789" ∧
    txInbCx.clasificacion = "Egreso" ∧
    txInbCx.cuentaOrigen = "" ∧
    txInbCx.cuentaDestino = "0123456789" :=
  ⟨by decide, by decide, by decide, by decide, by decide⟩

/-- C7 (amended): `funcion_extraer_cuentas_origen_destino` assigns the
own-account argument to the origin of a debit (destination of a credit), with
the other side empty or a different account; the BBVA and Banamex extractors
pass the statement's own account number, so the claim holds for them, but the
Inbursa extractor looks the own account up under the mismatched key
`numero_cuenta`, so its emitted transactions always carry an empty string on
the own-account side (and the other side may be any account found in the
block, including the statement's own). -/
theorem c7_asignacion_cuentas :
    (∀ (lineas : List String) (propia : String),
      ((funcion_extraer_cuentas_origen_destino lineas true propia).1 = propia ∧
       ((funcion_extraer_cuentas_origen_destino lineas true propia).2 = "" ∨
        (funcion_extraer_cuentas_origen_destino lineas true propia).2 ≠ propia)) ∧
      ((funcion_extraer_cuentas_origen_destino lineas false propia).2 = propia ∧
       ((funcion_extraer_cuentas_origen_destino lineas false propia).1 = "" ∨
        (funcion_extraer_cuentas_origen_destino lineas false propia).1 ≠ propia))) ∧
    (∀ (argv lineas : List String) (md : Dict) (layout : String) (tx : TransaccionBbva),
      funcion_parsear_transaccion_individual argv lineas md layout = some tx →
      (tx.clasificacion = "Egreso" →
        tx.cuentaOrigen = dgetStrD md "Numero de cuenta del estado de cuenta" "" ∧
        (tx.cuentaDestino = "" ∨
         tx.cuentaDestino ≠ dgetStrD md "Numero de cuenta del estado de cuenta" "")) ∧
      (tx.clasificacion = "Ingreso" →
        tx.cuentaDestino = dgetStrD md "Numero de cuenta del estado de cuenta" "" ∧
        (tx.cuentaOrigen = "" ∨
         tx.cuentaOrigen ≠ dgetStrD md "Numero de cuenta del estado de cuenta" ""))) ∧
    (∀ (argv lineas : List String) (anio cta : String) (tx : TransaccionBmx),
      funcion_procesar_grupo_transaccion argv lineas anio cta = some tx →
      (tx.clasificacion = "Egreso" →
        tx.cuentaOrigen = cta ∧ (tx.cuentaDestino = "" ∨ tx.cuentaDestino ≠ cta)) ∧
      (tx.clasificacion = "Ingreso" →
        tx.cuentaDestino = cta ∧ (tx.cuentaOrigen = "" ∨ tx.cuentaOrigen ≠ cta))) ∧
    (∀ (lineas : List String) (md : Dict) (anio : String)
        (prev : List TransaccionInb) (tx : TransaccionInb),
      (∀ p ∈ md, p.1 ∈ inbursa_meta_keys ++ ["saldo_inicial"]) →
      funcion_procesar_bloque_transaccion lineas md anio prev = some tx →
      (tx.clasificacion = "Egreso" → tx.cuentaOrigen = "") ∧
      (tx.clasificacion = "Ingreso" → tx.cuentaDestino = "")) :=
  ⟨cuentas_asignacion, bbva_cuentas_consistentes,
   banamex_cuentas_consistentes, inbursa_cuenta_propia_vacia⟩

/-- C7 (witness): concrete instances — the BBVA simple-layout debit takes the
(here unknown, empty) own account as origin, and the Inbursa counterexample
block yields an empty origin despite the known own account. -/
theorem c7_asignacion_testigo :
    txBbvaW.cuentaOrigen = dgetStrD ([] : Dict) "Numero de cuenta del estado de cuenta" "" ∧
    (txBmxCien.cuentaOrigen = "" ∧
      (txBmxCien.cuentaDestino = "" ∨ txBmxCien.cuentaDestino ≠ "")) ∧
    txInbCx.cuentaOrigen = "" :=
  ⟨((c7_asignacion_cuentas.2.1 [] bloqueBbvaW [] "simple" txBbvaW (by decide)).1
      (by decide)).1,
   (c7_asignacion_cuentas.2.2.1 [] bloqueBmxCien "2023" "" txBmxCien (by decide)).1
      (by decide),
   (c7_asignacion_cuentas.2.2.2 bloqueInbCx mdInbCx "2025" [] txInbCx
      (by decide) (by decide)).1 (by decide)⟩

/-! ## C8: year used for year-less transaction dates -/

/-- C8 (counterexample): a Banamex block processed with statement-period year
2023 is emitted with date `01/01/2025` — `funcion_extraer_fecha_normalizada`
rebuilds the `DD/MMM` date with the year detected from the `sys.argv` PDF
filename (default 2025), discarding the period year the extractor handed in;
the bare normalizer shows the same with no period in sight. -/
theorem c8_contraejemplo_anio :
    funcion_procesar_grupo_transaccion [] bloqueBmxCien "2023" "" = some txBmxCien ∧
    txBmxCien.fecha = "01/01/2025" ∧
    funcion_extraer_fecha_normalizada [] "05/ABR" = "05/04/2025" :=
  ⟨by decide, by decide, by decide⟩

/-- C8 (amended): for a raw date lacking a year, the normalized
`DD/MM/YYYY` result carries the year detected from the PDF filename in
`sys.argv` (`2024` or `2025`, defaulting to `2025`), not the statement
period's year — the Banamex extractor appends the period year but the
`DD/MMM` branch discards it; only the Inbursa extractor stamps the year
handed to it (its `_anio_aux` period year) onto transaction dates. -/
theorem c8_anio_de_argv :
    (∀ (argv : List String) (s dia mes : String),
      matchDDMMM s = some (dia, mes) →
      funcion_extraer_fecha_normalizada argv s =
        dia ++ "/" ++ meses_fecha mes ++ "/" ++ anio_detectado argv) ∧
    anio_detectado [] = "2025" ∧
    (∀ (lineas : List String) (md : Dict) (anio : String)
        (prev : List TransaccionInb) (tx : TransaccionInb),
      funcion_procesar_bloque_transaccion lineas md anio prev = some tx →
      ∃ d m, tx.fecha = d ++ "/" ++ m ++ "/" ++ anio) := by
  refine ⟨?_, rfl, ?_⟩
  · intro argv s dia mes h
    unfold funcion_extraer_fecha_normalizada
    rw [h]
  · intro lineas md anio prev tx htx
    unfold funcion_procesar_bloque_transaccion at htx
    split at htx
    · cases htx
    · split at htx
      · cases htx
      · dsimp only at htx
        split at htx
        · cases htx
        · cases htx
          exact ⟨_, _, rfl⟩

/-- C8 (witness): with `x_2024.pdf` among the process arguments the
normalized date takes year 2024, and the Inbursa witness block is stamped
with the year handed to the block processor. -/
theorem c8_anio_testigo :
    (funcion_extraer_fecha_normalizada ["x_2024.pdf"] "05/ABR" =
      "05" ++ "/" ++ meses_fecha "ABR" ++ "/" ++ anio_detectado ["x_2024.pdf"]) ∧
    (∃ d m, txInbW.fecha = d ++ "/" ++ m ++ "/" ++ "2025") :=
  ⟨c8_anio_de_argv.1 ["x_2024.pdf"] "05/ABR" "05" "ABR" (by decide),
   c8_anio_de_argv.2.2 bloqueInbW mdInbW "2025" [] txInbW (by decide)⟩
